import Mathlib

/-!
Verification development for the hybrid change-detection pipeline of the
`changesignalai` backend (`backend/app/services/`).

The Python sources are shallowly embedded:
* pure functions (`diff_engine.diff_structured`, `router.decide_llm_required`,
  price normalization, pricing indexing, diff previews) become Lean functions;
* Python `float` arithmetic is modelled over `ℚ` (the constants involved,
  0.001 / 0.10 / 0.30 / 0.70 / 0.6 / 0.75 / 0.8 / 0.9, are all exact decimals);
* dictionaries with a fixed field set become structures; JSON dictionaries of
  unknown shape become structures of `Option` fields (a missing key is `none`);
* external effects (HTTP responses, the Playwright page, the BeautifulSoup
  parser, the two LLM backends, database commits, `difflib` similarity) are
  environment parameters, so every theorem quantifies over the behaviour of
  those collaborators;
* raised exceptions are modelled with `Except`: a function that lets an
  exception escape returns `Except.error`, while caught exceptions are folded
  into the translated control flow.
-/

/-! ## Enumerations (`app/models/change_event.py`) -/

/-- `Severity` enum: "low" < "medium" < "high" < "critical". -/
inductive Severity where
  | low
  | medium
  | high
  | critical
deriving DecidableEq

/-- `ChangeType` enum with its six wire values. -/
inductive ChangeType where
  | pricing
  | features
  | policy
  | content
  | layout
  | other
deriving DecidableEq

/-- `Severity(s)` constructor lookup: `none` models the `ValueError` raise. -/
def Severity.ofString (s : String) : Option Severity :=
  if s = "low" then some .low
  else if s = "medium" then some .medium
  else if s = "high" then some .high
  else if s = "critical" then some .critical
  else none

/-- The `.value` string of a `Severity` member. -/
def Severity.val : Severity → String
  | .low => "low"
  | .medium => "medium"
  | .high => "high"
  | .critical => "critical"

/-- `ChangeType(s)` constructor lookup: `none` models the `ValueError` raise. -/
def ChangeType.ofString (s : String) : Option ChangeType :=
  if s = "pricing" then some .pricing
  else if s = "features" then some .features
  else if s = "policy" then some .policy
  else if s = "content" then some .content
  else if s = "layout" then some .layout
  else if s = "other" then some .other
  else none

/-- The `{LOW: 1, MEDIUM: 2, HIGH: 3, CRITICAL: 4}.get(severity, 1)` mapping
used by the orchestrator (total, so the default 1 is never taken). -/
def severityScore : Severity → Nat
  | .low => 1
  | .medium => 2
  | .high => 3
  | .critical => 4

/-! ## Python string truthiness helpers -/

/-- Python `a or b` for strings: an empty string falls through to `b`. -/
def pyOr (a b : String) : String :=
  if a = "" then b else a

/-- Python `a or b` where `a` is an optional string (`None` and `""` are falsy). -/
def pyOrOpt (a : Option String) (b : String) : String :=
  match a with
  | none => b
  | some s => if s = "" then b else s

/-- Python truthiness of an optional string (`None` and `""` are falsy). -/
def pyTruthy (a : Option String) : Bool :=
  match a with
  | none => false
  | some s => s ≠ ""

/-- Python slicing `s[:n]`. -/
def pySlice (n : Nat) (s : String) : String :=
  String.mk (s.data.take n)

/-- Python `s.lower()` (ASCII case folding; the pipeline's context keys and
enum strings are ASCII). -/
def pyLower (s : String) : String :=
  String.mk (s.data.map Char.toLower)

/-- Python `s.strip()`: drop leading and trailing whitespace. -/
def pyStrip (s : String) : String :=
  String.mk (((s.data.dropWhile Char.isWhitespace).reverse.dropWhile
      Char.isWhitespace).reverse)

/-- Python `s.replace(c, "")` for a single-character pattern: every
occurrence of the character is deleted. -/
def removeChar (c : Char) (s : String) : String :=
  String.mk (s.data.filter (fun x => x ≠ c))

/-! ## Extractor data model (`app/services/extractor.py`)

`PricingSignal` / `ExtractionResult.to_dict()` dictionaries, as consumed by the
diff engine and the router. -/

/-- One `PricingSignal` dictionary (`asdict` of the dataclass). -/
structure PricingItem where
  raw : String
  currency : Option String
  has_percent : Bool
  billing_term : Option String
  context : String
deriving DecidableEq

/-- One heading dictionary `{"level": ..., "text": ...}`. -/
structure Heading where
  level : String
  text : String
deriving DecidableEq

/-- `ExtractionResult.to_dict()`: the structured-extraction dictionary. -/
structure ExtractionDict where
  pricing : List PricingItem
  headings : List Heading
  features : List (List String)
  tables : List (List (List String))
  clean_text : String
deriving DecidableEq

/-- The all-empty `ExtractionResult` returned for empty input or on a parse
exception. -/
def emptyExtraction : ExtractionDict :=
  { pricing := [], headings := [], features := [], tables := [], clean_text := "" }

/-- `extract_structured` (`extractor.py` lines 160-198).  The body of the
`try:` block (BeautifulSoup parsing plus the `_extract_*` helpers) depends on
the external `lxml`/BeautifulSoup parser, so it is abstracted as the effectful
oracle `attempt`; an `Except.error` models any exception raised inside the
`try:` block, which the function absorbs into the all-empty result. -/
def extract_structured (attempt : String → Except Unit ExtractionDict)
    (html : Option String) : ExtractionDict :=
  if pyTruthy html = false then emptyExtraction
  else
    match attempt (html.getD "") with
    | .ok r => r
    | .error _ => emptyExtraction

/-! ## Diff engine (`app/services/diff_engine.py`) -/

/-- Value of a digit list (most significant first). -/
def digitsVal (ds : List Char) : Nat :=
  ds.foldl (fun n d => 10 * n + (d.toNat - 48)) 0

/-- Python `float(s)` on plain decimal forms `[digits][.digits]` (either part
may be missing but not both).  Exponent, `inf` and `nan` forms accepted by
Python are not modelled; the diff engine only meets price tokens produced by
`PRICE_REGEX`, which are plain decimals. -/
def parseUnsigned (cs : List Char) : Option ℚ :=
  let intPart := cs.takeWhile Char.isDigit
  let rest := cs.dropWhile Char.isDigit
  match rest with
  | [] => if intPart = [] then none else some (digitsVal intPart : ℚ)
  | '.' :: frac =>
      if frac.all Char.isDigit ∧ (intPart ≠ [] ∨ frac ≠ []) then
        some ((digitsVal intPart : ℚ) + (digitsVal frac : ℚ) / (10 : ℚ) ^ frac.length)
      else none
  | _ => none

/-- Signed wrapper around `parseUnsigned`. -/
def parsePyFloat (s : String) : Option ℚ :=
  match s.data with
  | [] => none
  | '+' :: cs => parseUnsigned cs
  | '-' :: cs => (parseUnsigned cs).map Neg.neg
  | cs => parseUnsigned cs

/-- `_normalize_price`: strip commas and dollar signs, strip whitespace, parse
as a float; `none` models the swallowed exception path returning `None`. -/
def _normalize_price (p : String) : Option ℚ :=
  parsePyFloat (pyStrip (removeChar '$' (removeChar ',' p)))

/-- The pricing index key of an item: `item.get("context", "")[:100]` then
`.lower()`. -/
def pricingKey (item : PricingItem) : String :=
  pyLower (pySlice 100 item.context)

/-- `_index_pricing`: index pricing signals by context key, first occurrence
per key wins; an insertion-ordered association list models the Python dict. -/
def _index_pricing (pricing : List PricingItem) : List (String × PricingItem) :=
  pricing.foldl
    (fun index item =>
      if index.any (fun kv => kv.1 = pricingKey item) then index
      else index ++ [(pricingKey item, item)])
    []

/-- Dict lookup `index.get(key)` on the association list. -/
def lookupIdx (index : List (String × PricingItem)) (k : String) : Option PricingItem :=
  (index.find? (fun kv => kv.1 = k)).map (fun kv => kv.2)

/-- One `pricing_changes` entry. -/
structure PriceChange where
  previous : PricingItem
  current : PricingItem
  delta : ℚ
  percent_change : ℚ
deriving DecidableEq

/-- The `heading_changes` dictionary (`none` models the initial `[]`). -/
structure HeadingChanges where
  previous : List String
  current : List String
deriving DecidableEq

/-- The `feature_changes` dictionary (`none` models the initial `[]`). -/
structure FeatureChanges where
  added : List String
  removed : List String
deriving DecidableEq

/-- The `table_changes` dictionary (`none` models the initial `[]`). -/
structure TableChanges where
  previous_count : Nat
  current_count : Nat
deriving DecidableEq

/-- The `changes` dictionary built by `diff_structured`. -/
structure StructuredChanges where
  pricing_changes : List PriceChange
  new_plans : List PricingItem
  removed_plans : List PricingItem
  heading_changes : Option HeadingChanges
  feature_changes : Option FeatureChanges
  table_changes : Option TableChanges
deriving DecidableEq

/-- `DiffResult` dataclass. -/
structure DiffResult where
  change_detected : Bool
  requires_llm : Bool
  confidence : ℚ
  structured_changes : StructuredChanges
  severity : Severity
deriving DecidableEq

/-- Mutable state threaded through the two pricing loops of
`diff_structured`. -/
structure DiffState where
  pricing_changes : List PriceChange
  new_plans : List PricingItem
  removed_plans : List PricingItem
  change_detected : Bool
  severity : Severity
  confidence : ℚ
deriving DecidableEq

/-- Body of the first pricing loop (`diff_engine.py` lines 86-111): price
changes where the context key matches, and removed pricing blocks. -/
def pricingStep (currIndex : List (String × PricingItem)) (st : DiffState)
    (kv : String × PricingItem) : DiffState :=
  match lookupIdx currIndex kv.1 with
  | none =>
      { st with removed_plans := st.removed_plans ++ [kv.2], change_detected := true }
  | some currItem =>
      match _normalize_price kv.2.raw, _normalize_price currItem.raw with
      | some prevPrice, some currPrice =>
          if 0 < prevPrice then
            let delta := currPrice - prevPrice
            let pct := delta / prevPrice
            if |pct| > 0.001 then
              let st1 := { st with
                pricing_changes :=
                  st.pricing_changes ++ [⟨kv.2, currItem, delta, pct⟩],
                change_detected := true }
              if pct > 0.10 ∧ (st1.severity = .low ∨ st1.severity = .medium) then
                { st1 with severity := .high, confidence := max st1.confidence 0.9 }
              else st1
            else st
          else st
      | _, _ => st

/-- Body of the second pricing loop (lines 114-119): new plans. -/
def newPlanStep (prevIndex : List (String × PricingItem)) (st : DiffState)
    (kv : String × PricingItem) : DiffState :=
  if (lookupIdx prevIndex kv.1).isNone then
    let st1 := { st with new_plans := st.new_plans ++ [kv.2], change_detected := true }
    if st1.severity = .low then { st1 with severity := .medium } else st1
  else st

/-- Insertion of a string into a sorted list (for Python `sorted`). -/
def insertSorted (x : String) : List String → List String
  | [] => [x]
  | y :: ys => if x ≤ y then x :: y :: ys else y :: insertSorted x ys

/-- Python `sorted` on strings (code-point lexicographic order). -/
def sortStrings (l : List String) : List String :=
  l.foldr insertSorted []

/-- Python `sorted(setOf a - setOf b)`: the distinct elements of `a` missing
from `b`, in ascending order. -/
def setDiffSorted (a b : List String) : List String :=
  sortStrings ((a.filter (fun x => ¬ b.contains x)).dedup)

/-- `diff_structured` (`diff_engine.py` lines 58-177): deterministic diff of
two structured snapshots with rule-based severity and base confidence. -/
def diff_structured (prev curr : ExtractionDict) : DiffResult :=
  let prevIndex := _index_pricing prev.pricing
  let currIndex := _index_pricing curr.pricing
  let st0 : DiffState :=
    { pricing_changes := [], new_plans := [], removed_plans := [],
      change_detected := false, severity := .low, confidence := 0.8 }
  let st1 := prevIndex.foldl (pricingStep currIndex) st0
  let st2 := currIndex.foldl (newPlanStep prevIndex) st1
  let prevHeadTexts := prev.headings.map (fun h => h.text)
  let currHeadTexts := curr.headings.map (fun h => h.text)
  let headingChanges : Option HeadingChanges :=
    if prevHeadTexts ≠ currHeadTexts then some ⟨prevHeadTexts, currHeadTexts⟩ else none
  let detected3 := st2.change_detected || decide (prevHeadTexts ≠ currHeadTexts)
  let prevFlat := prev.features.flatten
  let currFlat := curr.features.flatten
  let addedFeatures := setDiffSorted currFlat prevFlat
  let removedFeatures := setDiffSorted prevFlat currFlat
  let featureChanges : Option FeatureChanges :=
    if addedFeatures ≠ [] ∨ removedFeatures ≠ [] then
      some ⟨addedFeatures, removedFeatures⟩
    else none
  let detected4 := detected3 || decide (addedFeatures ≠ [] ∨ removedFeatures ≠ [])
  let tableChanges : Option TableChanges :=
    if prev.tables ≠ curr.tables then some ⟨prev.tables.length, curr.tables.length⟩
    else none
  let detected5 := detected4 || decide (prev.tables ≠ curr.tables)
  let conf1 := if detected5 = false then (0.6 : ℚ) else st2.confidence
  let finalPair :=
    if st2.pricing_changes = [] ∧ st2.new_plans = [] ∧ st2.removed_plans = [] ∧
        (headingChanges.isSome ∨ featureChanges.isSome) then
      (Severity.low, max conf1 0.75)
    else (st2.severity, conf1)
  { change_detected := detected5
    requires_llm := false
    confidence := finalPair.2
    structured_changes :=
      { pricing_changes := st2.pricing_changes
        new_plans := st2.new_plans
        removed_plans := st2.removed_plans
        heading_changes := headingChanges
        feature_changes := featureChanges
        table_changes := tableChanges }
    severity := finalPair.1 }

/-! ## Router (`app/services/router.py`) -/

/-- `RouterConfig` dataclass with its default thresholds. -/
structure RouterConfig where
  diff_ratio_threshold : ℚ
  confidence_threshold : ℚ
deriving DecidableEq

/-- The default `RouterConfig()` (0.30 / 0.70). -/
def defaultRouterConfig : RouterConfig :=
  { diff_ratio_threshold := 0.30, confidence_threshold := 0.70 }

/-- `RouterDecision` dataclass. -/
structure RouterDecision where
  requires_llm : Bool
  reason : String
deriving DecidableEq

/-- Python `f"{q:.2f}"` on the exact rational: two-decimal fixed formatting
(ties of the underlying binary double are not replicated; no claim reads the
digits of an escalation reason). -/
def fmt2 (q : ℚ) : String :=
  let n : Int := round (q * 100)
  let sign := if n < 0 then "-" else ""
  let m := n.natAbs
  let r := m % 100
  sign ++ toString (m / 100) ++ "." ++ (if r < 10 then "0" else "") ++ toString r

/-- `_content_diff_ratio` (`router.py` lines 32-37).  `difflib`'s
`SequenceMatcher.ratio` is standard-library code, so the normalized
similarity is the environment parameter `sim`; the empty-string short-circuit
is the repository's own code. -/
def _content_diff_ratio (sim : String → String → ℚ) (prev_text curr_text : String) : ℚ :=
  if prev_text = "" ∨ curr_text = "" then
    if prev_text ≠ curr_text then 1 else 0
  else 1 - sim prev_text curr_text

/-- `decide_llm_required` (`router.py` lines 40-73): escalate on a large text
diff without pricing signals, else on low deterministic confidence, else
stay deterministic. -/
def decide_llm_required (sim : String → String → ℚ)
    (prev_structured curr_structured : ExtractionDict)
    (prev_text curr_text : String)
    (deterministic_confidence : ℚ)
    (config : Option RouterConfig) : RouterDecision :=
  let cfg := config.getD defaultRouterConfig
  let has_structured_pricing :=
    ¬ (prev_structured.pricing = [] ∧ curr_structured.pricing = [])
  let ratio := _content_diff_ratio sim prev_text curr_text
  if ¬ has_structured_pricing ∧ ratio > cfg.diff_ratio_threshold then
    { requires_llm := true
      reason := "large_text_diff_no_pricing (ratio=" ++ fmt2 ratio ++ ")" }
  else if deterministic_confidence < cfg.confidence_threshold then
    { requires_llm := true
      reason := "low_confidence (" ++ fmt2 deterministic_confidence ++ ")" }
  else
    { requires_llm := false, reason := "deterministic_confident" }

/-! ## Fetcher (`app/services/fetcher.py`) -/

/-- `FetchResult` dataclass. -/
structure FetchResult where
  url : String
  success : Bool
  status_code : Option Nat
  html : Option String
  final_url : Option String
  error : Option String
  from_playwright : Bool
  attempt_count : Nat
  elapsed_ms : Option Nat
deriving DecidableEq

/-- Outcome of one `session.get` interaction: a response with a status and
body text, a timeout, or a raised transport exception. -/
inductive HttpOutcome where
  | response (status : Nat) (text : String)
  | timeout
  | exn (msg : String)
deriving DecidableEq

/-- The `(success, html, status_code, error_message)` tuple of `_fetch_once`. -/
structure FetchOnce where
  success : Bool
  html : Option String
  status : Option Nat
  error : Option String
deriving DecidableEq

/-- `_fetch_once` (`fetcher.py` lines 71-98) applied to one network outcome:
2xx/3xx with a non-empty body succeeds; everything else fails with a
human-readable error string (`HTTP_TIMEOUT_SECONDS = 10`). -/
def _fetch_once (urlValid : Bool) (o : HttpOutcome) : FetchOnce :=
  if urlValid = false then
    { success := false, html := none, status := none, error := some "Invalid URL format" }
  else
    match o with
    | .response status text =>
        if 200 ≤ status ∧ status < 400 ∧ text ≠ "" then
          { success := true, html := some text, status := some status, error := none }
        else
          { success := false, html := some text, status := some status,
            error := some ("Unexpected status code: " ++ toString status) }
    | .timeout =>
        { success := false, html := none, status := none,
          error := some "Request timed out after 10s" }
    | .exn msg =>
        { success := false, html := none, status := none, error := some msg }

/-- The data the Playwright page interaction yields when `page.goto` and
friends succeed: HTTP status, title, `page.content()` and the visible text
extracted from it (all external to the repository). -/
structure PageData where
  status : Option Nat
  title : String
  content : String
  cleaned : String
deriving DecidableEq

/-- `scrape_page`'s result dictionary (`scraper_service.py` lines 70-174);
hash/timing/size bookkeeping fields are omitted: no caller under
verification reads them. -/
structure ScrapeDict where
  success : Bool
  raw_html : Option String
  cleaned_text : Option String
  page_title : Option String
  http_status_code : Option Nat
  error_message : Option String
deriving DecidableEq

/-- Environment of one `scrape_page` call: URL validity and the outcome of
the Playwright page interaction (`Except.error` models any exception raised
by `new_page`/`goto`/`content`). -/
structure ScrapeEnv where
  urlValid : Bool
  page : Except String PageData
deriving Inhabited

/-- `scrape_page` (`scraper_service.py` lines 70-174): validation failure and
page exceptions produce a failed dictionary; a completed interaction
produces `success=True` with `error_message=None`. -/
def scrape_page (env : ScrapeEnv) : ScrapeDict :=
  if env.urlValid = false then
    { success := false, raw_html := none, cleaned_text := none, page_title := none,
      http_status_code := none, error_message := some "Invalid URL format" }
  else
    match env.page with
    | .error e =>
        { success := false, raw_html := none, cleaned_text := none, page_title := none,
          http_status_code := none, error_message := some e }
    | .ok pd =>
        { success := true, raw_html := some pd.content, cleaned_text := some pd.cleaned,
          page_title := some pd.title, http_status_code := pd.status,
          error_message := none }

/-- Environment of one `fetch_with_playwright` call: `initError` models an
exception from `get_scraper()`/`scrape_page` escaping to the `except` branch
of `fetch_with_playwright`, `elapsedMs` the measured wall time. -/
structure PwEnv where
  initError : Option String
  scrape : ScrapeEnv
  elapsedMs : Nat
deriving Inhabited

/-- `fetch_with_playwright` (`fetcher.py` lines 198-235): normalize the
scraper dictionary into a `FetchResult` tagged `from_playwright=True` with
`attempt_count=1`. -/
def fetch_with_playwright (env : PwEnv) (url : String) : FetchResult :=
  match env.initError with
  | some e =>
      { url := url, success := false, status_code := none, html := none,
        final_url := none, error := some e, from_playwright := true,
        attempt_count := 1, elapsed_ms := some env.elapsedMs }
  | none =>
      let r := scrape_page env.scrape
      { url := url, success := r.success, status_code := r.http_status_code,
        html := r.raw_html, final_url := some url, error := r.error_message,
        from_playwright := true, attempt_count := 1,
        elapsed_ms := some env.elapsedMs }

/-- Environment of one `fetch_page` call: URL validity (`validate_url`),
`settings.MAX_RETRIES`, the outcome of each primary HTTP attempt (1-based),
the Playwright environment and the measured wall time. -/
structure FetchEnv where
  urlValid : Bool
  settingsMaxRetries : Nat
  outcomes : Nat → HttpOutcome
  pw : PwEnv
  elapsedMs : Nat

/-- `MAX_RETRIES = max(1, settings.MAX_RETRIES)`. -/
def maxRetriesOf (env : FetchEnv) : Nat :=
  max 1 env.settingsMaxRetries

/-- The retry loop of `fetch_page` (lines 139-170): run attempts
`i, i+1, ...` while `remaining` attempts are left; a success returns the
completed `FetchResult`, exhaustion returns the last attempt's
`(status, html, error)`. -/
def fetchAttempts (env : FetchEnv) (url : String) :
    Nat → Nat → (Option Nat × Option String × Option String) →
    FetchResult ⊕ (Option Nat × Option String × Option String)
  | _, 0, last => .inr last
  | i, remaining + 1, _ =>
      let a := _fetch_once env.urlValid (env.outcomes i)
      if a.success then
        .inl { url := url, success := true, status_code := a.status, html := a.html,
               final_url := some url, error := none, from_playwright := false,
               attempt_count := i, elapsed_ms := some env.elapsedMs }
      else
        fetchAttempts env url (i + 1) remaining (a.status, a.html, a.error)

/-- `fetch_page` (`fetcher.py` lines 101-195), instrumented with the number
of delegations to the Playwright fallback (second component).  Semaphore
acquisition and backoff sleeps are scheduling-only and have no effect on the
returned value. -/
def fetch_page (env : FetchEnv) (url : String) (use_playwright_fallback : Bool) :
    FetchResult × Nat :=
  if env.urlValid = false then
    ({ url := url, success := false, status_code := none, html := none,
       final_url := none, error := some "Invalid URL format",
       from_playwright := false, attempt_count := 0, elapsed_ms := none }, 0)
  else
    match fetchAttempts env url 1 (maxRetriesOf env) (none, none, none) with
    | .inl r => (r, 0)
    | .inr last =>
        if use_playwright_fallback then
          let pw_result := fetch_with_playwright env.pw url
          ({ pw_result with attempt_count := maxRetriesOf env }, 1)
        else
          ({ url := url, success := false, status_code := last.1, html := last.2.1,
             final_url := some url,
             error := some (pyOr (last.2.2.getD "") "Failed to fetch page"),
             from_playwright := false, attempt_count := maxRetriesOf env,
             elapsed_ms := some env.elapsedMs }, 0)

/-! ## Groq fast-tier adapter (`app/services/groq_engine.py`) -/

/-- The JSON object parsed from the Groq model's reply, as read by the
normalization in `analyze_changes` (a missing key is `none`; `confidence` is
assumed numeric — a non-numeric value would make `float(...)` raise inside
the adapter's `try:`, which is the same as `groqResponse = none`). -/
structure RawGroqJson where
  change_detected : Option Bool
  change_type : Option String
  severity : Option String
  business_impact : Option String
  recommended_action : Option String
  confidence : Option ℚ
  summary : Option String
deriving DecidableEq

/-- A semantic-analysis dictionary as the orchestrator's merge step reads it
(every key optional, mirroring `dict.get`). -/
structure LLMDict where
  change_detected : Option Bool
  summary : Option String
  change_type : Option String
  severity : Option String
  business_impact : Option String
  recommended_action : Option String
  confidence : Option ℚ
deriving DecidableEq

/-- The `result = {...}` normalization of `GroqEngine.analyze_changes`
(`groq_engine.py` lines 85-92): exactly six keys, and no `summary` key. -/
def groqNormalize (data : RawGroqJson) : LLMDict :=
  { change_detected := some (data.change_detected.getD false)
    summary := none
    change_type := some (data.change_type.getD "other")
    severity := some (data.severity.getD "low")
    business_impact := some (data.business_impact.getD "")
    recommended_action := some (data.recommended_action.getD "")
    confidence := some (data.confidence.getD 0) }

/-- `GroqEngine.analyze_changes` (`groq_engine.py` lines 45-96): `None` when
the engine is disabled or when the API call / JSON parse failed (all such
exceptions are caught inside), otherwise the normalized dictionary. -/
def groqAnalyzeChanges (enabled : Bool) (resp : Option RawGroqJson) : Option LLMDict :=
  if enabled = false then none
  else resp.map groqNormalize

/-! ## Orchestrator (`app/services/change_detection_service.py`) -/

/-- The `Snapshot` columns the orchestrator reads. -/
structure Snapshot where
  id : Nat
  success : Bool
  cleaned_text : Option String
  raw_html : Option String
  content_hash : Option String
  page_title : Option String
deriving DecidableEq

/-- The `MonitoredPage` columns the orchestrator reads. -/
structure MonitoredPage where
  id : Nat
  url : Option String
  page_title : Option String
  page_type : Option String
deriving DecidableEq

/-- `_needs_openai_fallback` (lines 24-34): a change was detected but impact
or action is missing or thinner than 20 characters after stripping. -/
def _needs_openai_fallback (change_detected : Bool)
    (business_impact recommended_action : String) : Bool :=
  if change_detected = false then false
  else
    decide ((pyStrip business_impact).length < 20 ∨ (pyStrip recommended_action).length < 20)

/-- Modelled from the spec: the deep-fallback backend's
`analyze_changes_in_depth` is referenced by the orchestrator but absent from
the sources (only its caller exists); per §4.5 of the spec it "returns a
richer analysis including a narrative human-readable comparison, and may
overwrite `summary`, `severity`, `change_type`, `business_impact`,
`recommended_action`", so its reply is an arbitrary JSON dictionary with
those optional fields. -/
structure InDepthResp where
  human_readable_comparison : Option String
  business_impact : Option String
  recommended_action : Option String
  summary : Option String
  severity : Option String
  change_type : Option String
deriving DecidableEq

/-- The merged classification state (`change_detection_service.py` lines
139-145) threaded from the merge step into the final `ChangeEvent`. -/
structure MergeState where
  change_detected : Bool
  change_type : ChangeType
  severity : Severity
  severity_score : Nat
  summary : String
  business_impact : String
  recommended_action : String
  confidence : ℚ
deriving DecidableEq

/-- Exceptions that can escape `detect_and_analyze_changes`. -/
inductive OrchErr where
  | fastCommit
  | invalidChangeType (s : String)
  | invalidSeverity (s : String)
deriving DecidableEq

/-- The merge of the deterministic diff with the optional fast-tier analysis
(`change_detection_service.py` lines 139-187).  With a non-null analysis the
`ChangeType(...)` / `Severity(...)` constructor calls can raise (modelled as
`Except.error`); without one the deterministic classification stands with the
rule-based summary priority. -/
def mergeLLM (diffR : DiffResult) (llm_analysis : Option LLMDict) :
    Except OrchErr MergeState :=
  match llm_analysis with
  | some d =>
      let change_detected := d.change_detected.getD diffR.change_detected
      let summary := pyOr (d.summary.getD "Change detected") "Change detected"
      let ctStr := d.change_type.getD "other"
      match ChangeType.ofString ctStr with
      | none => .error (.invalidChangeType ctStr)
      | some change_type =>
          let sevStr := d.severity.getD diffR.severity.val
          match Severity.ofString sevStr with
          | none => .error (.invalidSeverity sevStr)
          | some severity =>
              .ok { change_detected := change_detected
                    change_type := change_type
                    severity := severity
                    severity_score := severityScore severity
                    summary := summary
                    business_impact := pyOr (d.business_impact.getD "") ""
                    recommended_action := pyOr (d.recommended_action.getD "") ""
                    confidence := d.confidence.getD diffR.confidence }
  | none =>
      let sc := diffR.structured_changes
      .ok { change_detected := diffR.change_detected
            change_type := if sc.pricing_changes ≠ [] then .pricing else .other
            severity := diffR.severity
            severity_score := severityScore diffR.severity
            summary :=
              if sc.pricing_changes ≠ [] then "Pricing changes detected"
              else if sc.new_plans ≠ [] ∨ sc.removed_plans ≠ [] then
                "Plan changes detected"
              else if sc.feature_changes.isSome then "Feature changes detected"
              else if sc.heading_changes.isSome then "Heading changes detected"
              else "Content changes detected"
            business_impact := ""
            recommended_action := ""
            confidence := diffR.confidence }

/-- Stage 5b, the deep OpenAI fallback (`change_detection_service.py` lines
189-228): returns the updated state, the `human_readable_comparison` value,
and whether the backend was invoked.  The call happens only when
`_needs_openai_fallback` holds and an OpenAI key is configured; a raised
exception (`Except.error`) leaves everything as it was; non-empty returned
fields overwrite, empty or missing ones do not, and an invalid
severity/change_type string is swallowed by the inner `try/except`. -/
def openaiFallbackStage (st : MergeState) (configured : Bool)
    (r : Except String InDepthResp) : MergeState × Option String × Bool :=
  if _needs_openai_fallback st.change_detected st.business_impact st.recommended_action then
    if configured then
      match r with
      | .error _ => (st, none, true)
      | .ok d =>
          let hrc := some (pyOr (d.human_readable_comparison.getD "") "")
          let st1 :=
            if d.business_impact.getD "" ≠ "" then
              { st with business_impact := d.business_impact.getD "" }
            else st
          let st2 :=
            if d.recommended_action.getD "" ≠ "" then
              { st1 with recommended_action := d.recommended_action.getD "" }
            else st1
          let st3 :=
            if d.summary.getD "" ≠ "" then { st2 with summary := d.summary.getD "" }
            else st2
          let st4 :=
            if d.severity.getD "" ≠ "" then
              match Severity.ofString (d.severity.getD "") with
              | some sev =>
                  { st3 with severity := sev, severity_score := severityScore sev }
              | none => st3
            else st3
          let st5 :=
            if d.change_type.getD "" ≠ "" then
              match ChangeType.ofString (d.change_type.getD "") with
              | some ct => { st4 with change_type := ct }
              | none => st4
            else st4
          (st5, hrc, true)
    else (st, none, false)
  else (st, none, false)

/-- `_generate_diff_preview` (lines 270-296). -/
def _generate_diff_preview (previous_content current_content : String)
    (max_length : Nat) : String :=
  let prev_preview :=
    if previous_content ≠ "" then previous_content.take max_length else ""
  let curr_preview :=
    if current_content ≠ "" then current_content.take max_length else ""
  let prev_preview :=
    if previous_content.length > max_length then prev_preview ++ "..." else prev_preview
  let curr_preview :=
    if current_content.length > max_length then curr_preview ++ "..." else curr_preview
  "BEFORE:\n" ++ prev_preview ++ "\n\nAFTER:\n" ++ curr_preview

/-- The `ChangeEvent` row as built by the orchestrator (columns it sets;
`structured_diff = none` models the literal empty dict `{}` of the
fast path, `some` the diff engine's six-key dictionary). -/
structure ChangeEventRec where
  monitored_page_id : Nat
  snapshot_id : Nat
  change_detected : Bool
  summary : String
  change_type : ChangeType
  severity : Severity
  severity_score : Nat
  business_impact : Option String
  recommended_action : Option String
  structured_diff : Option StructuredChanges
  llm_analysis : Option LLMDict
  requires_llm : Bool
  confidence : ℚ
  diff_preview : Option String
  human_readable_comparison : Option String
deriving DecidableEq

/-- Instrumentation: how many times each downstream stage was invoked during
one `detect_and_analyze_changes` call. -/
structure Calls where
  extractor : Nat
  diffEngine : Nat
  router : Nat
  groq : Nat
  openai : Nat
deriving DecidableEq

/-- Environment of one `detect_and_analyze_changes` call: the baseline
snapshot provided by `MonitoringService.get_previous_snapshot`, the
BeautifulSoup oracle for the extractor, the `difflib` similarity, the Groq
configuration and reply, the OpenAI configuration and reply, and whether
each of the two `db.commit()` calls succeeds. -/
structure OrchEnv where
  previousSnapshot : Option Snapshot
  extractAttempt : String → Except Unit ExtractionDict
  sim : String → String → ℚ
  groqEnabled : Bool
  groqResponse : Option RawGroqJson
  openaiConfigured : Bool
  inDepth : Except String InDepthResp
  fastCommitOk : Bool
  finalCommitOk : Bool

/-- `ChangeDetectionService.detect_and_analyze_changes`
(`change_detection_service.py` lines 53-268).  `Except.error` models an
exception escaping to the caller: the fast path's unguarded `db.commit()`
and the `ChangeType(...)`/`Severity(...)` calls of the merge step are the
only such points — the final commit is wrapped in `try/except` that rolls
back and returns `None`.  The second component counts stage invocations. -/
def detect_and_analyze_changes (env : OrchEnv) (cur : Snapshot)
    (page : MonitoredPage) : Except OrchErr (Option ChangeEventRec) × Calls :=
  if cur.success = false ∨ pyTruthy cur.cleaned_text = false then
    (.ok none, ⟨0, 0, 0, 0, 0⟩)
  else
    match env.previousSnapshot with
    | none => (.ok none, ⟨0, 0, 0, 0, 0⟩)
    | some previous =>
        if cur.content_hash = previous.content_hash then
          let change_event : ChangeEventRec :=
            { monitored_page_id := page.id, snapshot_id := cur.id,
              change_detected := false, summary := "No changes detected",
              change_type := .other, severity := .low, severity_score := 1,
              business_impact := none, recommended_action := none,
              structured_diff := none, llm_analysis := none,
              requires_llm := false, confidence := 0.9, diff_preview := none,
              human_readable_comparison := none }
          if env.fastCommitOk then (.ok (some change_event), ⟨0, 0, 0, 0, 0⟩)
          else (.error .fastCommit, ⟨0, 0, 0, 0, 0⟩)
        else
          let prev_structured :=
            extract_structured env.extractAttempt
              (some (pyOrOpt previous.raw_html (pyOrOpt previous.cleaned_text "")))
          let curr_structured :=
            extract_structured env.extractAttempt
              (some (pyOrOpt cur.raw_html (pyOrOpt cur.cleaned_text "")))
          let diff_result := diff_structured prev_structured curr_structured
          let prevText := pyOrOpt previous.cleaned_text ""
          let currText := pyOrOpt cur.cleaned_text ""
          let router_decision :=
            decide_llm_required env.sim prev_structured curr_structured
              prevText currText diff_result.confidence none
          let requires_llm := router_decision.requires_llm && env.groqEnabled
          let llm_analysis :=
            if requires_llm then groqAnalyzeChanges env.groqEnabled env.groqResponse
            else none
          let calls : Calls :=
            ⟨2, 1, 1, if requires_llm then 1 else 0, 0⟩
          match mergeLLM diff_result llm_analysis with
          | .error e => (.error e, calls)
          | .ok st =>
              let fb := openaiFallbackStage st env.openaiConfigured env.inDepth
              let st := fb.1
              let calls := { calls with openai := if fb.2.2 then 1 else 0 }
              let change_event : ChangeEventRec :=
                { monitored_page_id := page.id, snapshot_id := cur.id,
                  change_detected := st.change_detected, summary := st.summary,
                  change_type := st.change_type, severity := st.severity,
                  severity_score := st.severity_score,
                  business_impact := some st.business_impact,
                  recommended_action := some st.recommended_action,
                  structured_diff := some diff_result.structured_changes,
                  llm_analysis := llm_analysis, requires_llm := requires_llm,
                  confidence := st.confidence,
                  diff_preview := some (_generate_diff_preview prevText currText 500),
                  human_readable_comparison := fb.2.1 }
              if env.finalCommitOk then (.ok (some change_event), calls)
              else (.ok none, calls)

/-! ## Characterization of the `diff_structured` pricing loops -/

/-- The `pricing_changes` entry the first pricing loop produces for one
previous-index entry, if any. -/
def entryFor (currIndex : List (String × PricingItem))
    (kv : String × PricingItem) : Option PriceChange :=
  match lookupIdx currIndex kv.1 with
  | none => none
  | some currItem =>
      match _normalize_price kv.2.raw, _normalize_price currItem.raw with
      | some prevPrice, some currPrice =>
          if 0 < prevPrice then
            if |(currPrice - prevPrice) / prevPrice| > 0.001 then
              some ⟨kv.2, currItem, currPrice - prevPrice,
                    (currPrice - prevPrice) / prevPrice⟩
            else none
          else none
      | _, _ => none

/-- The `removed_plans` entry the first pricing loop produces, if any. -/
def removedFor (currIndex : List (String × PricingItem))
    (kv : String × PricingItem) : Option PricingItem :=
  if (lookupIdx currIndex kv.1).isNone then some kv.2 else none

/-- Whether one previous-index entry triggers the significant-price-increase
severity escalation. -/
def sigFor (currIndex : List (String × PricingItem))
    (kv : String × PricingItem) : Bool :=
  match entryFor currIndex kv with
  | some e => decide (e.percent_change > 0.10)
  | none => false

/-- The `new_plans` entry the second pricing loop produces, if any. -/
def newPlanFor (prevIndex : List (String × PricingItem))
    (kv : String × PricingItem) : Option PricingItem :=
  if (lookupIdx prevIndex kv.1).isNone then some kv.2 else none

theorem pricingStep_eq (cI : List (String × PricingItem)) (st : DiffState)
    (kv : String × PricingItem) (hsev : st.severity = .low ∨ st.severity = .high) :
    pricingStep cI st kv =
      { pricing_changes := st.pricing_changes ++ (entryFor cI kv).toList
        new_plans := st.new_plans
        removed_plans := st.removed_plans ++ (removedFor cI kv).toList
        change_detected :=
          st.change_detected || (removedFor cI kv).isSome || (entryFor cI kv).isSome
        severity := if st.severity = .low ∧ sigFor cI kv = true then .high else st.severity
        confidence :=
          if st.severity = .low ∧ sigFor cI kv = true then max st.confidence 0.9
          else st.confidence } := by
  rcases h : lookupIdx cI kv.1 with _ | currItem
  · have hE : entryFor cI kv = none := by simp [entryFor, h]
    have hS : sigFor cI kv = false := by simp [sigFor, hE]
    have hR : removedFor cI kv = some kv.2 := by simp [removedFor, h]
    simp [pricingStep, h, hE, hS, hR]
  · have hR : removedFor cI kv = none := by simp [removedFor, h]
    rcases hp : _normalize_price kv.2.raw with _ | p <;>
      rcases hc : _normalize_price currItem.raw with _ | c
    · have hE : entryFor cI kv = none := by simp [entryFor, h, hp]
      have hS : sigFor cI kv = false := by simp [sigFor, hE]
      simp [pricingStep, h, hp, hE, hS, hR]
    · have hE : entryFor cI kv = none := by simp [entryFor, h, hp]
      have hS : sigFor cI kv = false := by simp [sigFor, hE]
      simp [pricingStep, h, hp, hc, hE, hS, hR]
    · have hE : entryFor cI kv = none := by simp [entryFor, h, hp, hc]
      have hS : sigFor cI kv = false := by simp [sigFor, hE]
      simp [pricingStep, h, hp, hc, hE, hS, hR]
    · by_cases hpos : 0 < p
      · by_cases habs : |(c - p) / p| > 0.001
        · have hE : entryFor cI kv =
              some ⟨kv.2, currItem, c - p, (c - p) / p⟩ := by
            simp [entryFor, h, hp, hc, hpos, habs]
          by_cases hsig : (c - p) / p > 0.10
          · have hS : sigFor cI kv = true := by
              simp [sigFor, hE, hsig]
            rcases hsev with h1 | h1 <;>
              simp [pricingStep, h, hp, hc, hpos, habs, hsig, hE, hS, hR, h1]
          · have hS : sigFor cI kv = false := by
              simp [sigFor, hE, hsig]
            rcases hsev with h1 | h1 <;>
              simp [pricingStep, h, hp, hc, hpos, habs, hsig, hE, hS, hR, h1]
        · have hE : entryFor cI kv = none := by
            simp [entryFor, h, hp, hc, hpos, habs]
          have hS : sigFor cI kv = false := by simp [sigFor, hE]
          simp [pricingStep, h, hp, hc, hpos, habs, hE, hS, hR]
      · have hE : entryFor cI kv = none := by
          simp [entryFor, h, hp, hc, hpos]
        have hS : sigFor cI kv = false := by simp [sigFor, hE]
        simp [pricingStep, h, hp, hc, hpos, hE, hS, hR]

theorem newPlanStep_eq (pI : List (String × PricingItem)) (st : DiffState)
    (kv : String × PricingItem) :
    newPlanStep pI st kv =
      { pricing_changes := st.pricing_changes
        new_plans := st.new_plans ++ (newPlanFor pI kv).toList
        removed_plans := st.removed_plans
        change_detected := st.change_detected || (newPlanFor pI kv).isSome
        severity :=
          if st.severity = .low ∧ (newPlanFor pI kv).isSome = true then .medium
          else st.severity
        confidence := st.confidence } := by
  rcases h : lookupIdx pI kv.1 with _ | v
  · have hN : newPlanFor pI kv = some kv.2 := by simp [newPlanFor, h]
    by_cases h1 : st.severity = .low <;> simp [newPlanStep, h, hN, h1]
  · have hN : newPlanFor pI kv = none := by simp [newPlanFor, h]
    simp [newPlanStep, h, hN]

theorem pricingFold (cI : List (String × PricingItem)) :
    ∀ (l : List (String × PricingItem)) (st : DiffState),
    st.severity = .low ∨ st.severity = .high →
    l.foldl (pricingStep cI) st =
      { pricing_changes := st.pricing_changes ++ l.filterMap (entryFor cI)
        new_plans := st.new_plans
        removed_plans := st.removed_plans ++ l.filterMap (removedFor cI)
        change_detected :=
          st.change_detected ||
            l.any (fun kv => (removedFor cI kv).isSome || (entryFor cI kv).isSome)
        severity :=
          if st.severity = .low ∧ l.any (sigFor cI) = true then .high else st.severity
        confidence :=
          if st.severity = .low ∧ l.any (sigFor cI) = true then max st.confidence 0.9
          else st.confidence } := by
  intro l
  induction l with
  | nil => intro st hsev; simp
  | cons kv l ih =>
      intro st hsev
      rw [List.foldl_cons, pricingStep_eq cI st kv hsev]
      have hsev2 :
          (if st.severity = .low ∧ sigFor cI kv = true then Severity.high
            else st.severity) = .low ∨
          (if st.severity = .low ∧ sigFor cI kv = true then Severity.high
            else st.severity) = .high := by
        split
        · exact Or.inr rfl
        · exact hsev
      rw [ih _ hsev2]
      rcases hE : entryFor cI kv with _ | e <;>
        rcases hR : removedFor cI kv with _ | r <;>
          rcases hsev with h1 | h1 <;>
            by_cases hk : sigFor cI kv = true <;>
              by_cases ha : l.any (sigFor cI) = true <;>
                simp [h1, hk, ha, hE, hR, List.filterMap_cons, Bool.or_assoc]

theorem newPlanFold (pI : List (String × PricingItem)) :
    ∀ (l : List (String × PricingItem)) (st : DiffState),
    l.foldl (newPlanStep pI) st =
      { pricing_changes := st.pricing_changes
        new_plans := st.new_plans ++ l.filterMap (newPlanFor pI)
        removed_plans := st.removed_plans
        change_detected :=
          st.change_detected || l.any (fun kv => (newPlanFor pI kv).isSome)
        severity :=
          if st.severity = .low ∧ l.any (fun kv => (newPlanFor pI kv).isSome) = true
          then .medium else st.severity
        confidence := st.confidence } := by
  intro l
  induction l with
  | nil => intro st; simp
  | cons kv l ih =>
      intro st
      rw [List.foldl_cons, newPlanStep_eq pI st kv, ih]
      by_cases h1 : st.severity = .low <;>
        rcases hN : newPlanFor pI kv with _ | v <;>
          by_cases ha : (l.any fun kv => (newPlanFor pI kv).isSome) = true <;>
            simp [h1, hN, ha, List.filterMap_cons, Bool.or_assoc]

/-! ## Properties of the pricing index -/

theorem index_key_inv (ps : List PricingItem) :
    ∀ kv ∈ _index_pricing ps, kv.1 = pricingKey kv.2 := by
  have aux : ∀ (l : List PricingItem) (acc : List (String × PricingItem)),
      (∀ kv ∈ acc, kv.1 = pricingKey kv.2) →
      ∀ kv ∈ l.foldl
        (fun index item =>
          if index.any (fun kv => kv.1 = pricingKey item) then index
          else index ++ [(pricingKey item, item)]) acc,
      kv.1 = pricingKey kv.2 := by
    intro l
    induction l with
    | nil => intro acc hacc kv hkv; exact hacc kv hkv
    | cons x l ih =>
        intro acc hacc kv hkv
        rw [List.foldl_cons] at hkv
        refine ih _ ?_ kv hkv
        intro kv2 hkv2
        by_cases hx : (acc.any fun kv => decide (kv.1 = pricingKey x)) = true
        · rw [if_pos hx] at hkv2; exact hacc kv2 hkv2
        · rw [if_neg hx] at hkv2
          rcases List.mem_append.1 hkv2 with h2 | h2
          · exact hacc kv2 h2
          · rcases List.mem_singleton.1 h2 with rfl; rfl
  intro kv hkv
  exact aux ps [] (by intro kv h; cases h) kv hkv

theorem index_keys_pairwise (ps : List PricingItem) :
    (_index_pricing ps).Pairwise (fun a b => a.1 ≠ b.1) := by
  have aux : ∀ (l : List PricingItem) (acc : List (String × PricingItem)),
      acc.Pairwise (fun a b => a.1 ≠ b.1) →
      (l.foldl
        (fun index item =>
          if index.any (fun kv => kv.1 = pricingKey item) then index
          else index ++ [(pricingKey item, item)]) acc).Pairwise
        (fun a b => a.1 ≠ b.1) := by
    intro l
    induction l with
    | nil => intro acc hacc; exact hacc
    | cons x l ih =>
        intro acc hacc
        rw [List.foldl_cons]
        refine ih _ ?_
        dsimp only
        by_cases hx : (acc.any fun kv => decide (kv.1 = pricingKey x)) = true
        · rw [if_pos hx]; exact hacc
        · rw [if_neg hx]
          rw [List.pairwise_append]
          refine ⟨hacc, List.pairwise_singleton _ _, ?_⟩
          intro a ha b hb
          rcases List.mem_singleton.1 hb with rfl
          intro hcontra
          exact hx (List.any_eq_true.2 ⟨a, ha, by simp [hcontra]⟩)
  exact aux ps [] List.Pairwise.nil

theorem lookupIdx_mem {idx : List (String × PricingItem)} {k : String}
    {v : PricingItem} (h : lookupIdx idx k = some v) : (k, v) ∈ idx := by
  unfold lookupIdx at h
  rcases hf : idx.find? (fun kv => kv.1 = k) with _ | kv
  · rw [hf] at h; cases h
  · rw [hf] at h
    have h1 : kv.2 = v := by simpa using h
    have h2 : kv.1 = k := by
      have := List.find?_some hf
      simpa using this
    have h3 := List.mem_of_find?_eq_some hf
    have : kv = (k, v) := by
      cases kv; simp at h1 h2; simp [h1, h2]
    rw [this] at h3; exact h3

theorem mem_lookupIdx {idx : List (String × PricingItem)} {k : String}
    {v : PricingItem} (hpw : idx.Pairwise (fun a b => a.1 ≠ b.1))
    (h : (k, v) ∈ idx) : lookupIdx idx k = some v := by
  induction idx with
  | nil => cases h
  | cons kv rest ih =>
      rcases List.pairwise_cons.1 hpw with ⟨hhead, htail⟩
      rcases List.mem_cons.1 h with h1 | h1
      · unfold lookupIdx
        rw [List.find?_cons_of_pos]
        · simp [← h1]
        · simp [← h1]
      · have hne : kv.1 ≠ k := by
          intro hcontra
          exact hhead (k, v) h1 hcontra
        unfold lookupIdx
        rw [List.find?_cons_of_neg]
        · exact ih htail h1
        · simp [hne]

theorem entryFor_previous {cI : List (String × PricingItem)}
    {kv : String × PricingItem} {e : PriceChange}
    (h : entryFor cI kv = some e) : e.previous = kv.2 := by
  unfold entryFor at h
  split at h
  · cases h
  · split at h
    · split at h
      · split at h
        · injection h with h2
          rw [← h2]
        · cases h
      · cases h
    · cases h

theorem countP_filterMap {α β : Type} (f : α → Option β) (p : β → Bool)
    (l : List α) :
    (l.filterMap f).countP p =
      l.countP (fun a => ((f a).map p).getD false) := by
  induction l with
  | nil => rfl
  | cons x l ih =>
      rcases hf : f x with _ | b
      · rw [List.filterMap_cons_none hf, List.countP_cons, ih]
        simp [hf]
      · rw [List.filterMap_cons_some hf, List.countP_cons, List.countP_cons, ih]
        simp [hf]

theorem countP_eq_one_of_unique {α : Type} (l : List α) (a : α) (p : α → Bool)
    (hmem : a ∈ l) (hnd : l.Nodup) (hp : ∀ x ∈ l, (p x = true ↔ x = a)) :
    l.countP p = 1 := by
  induction l with
  | nil => cases hmem
  | cons x l ih =>
      rcases List.nodup_cons.1 hnd with ⟨hx, hnd2⟩
      rcases List.mem_cons.1 hmem with heq | hmem2
      · have hpx : p x = true := (hp x (List.mem_cons_self x l)).2 heq.symm
        have hzero : l.countP p = 0 := by
          rw [List.countP_eq_zero]
          intro y hy hpy
          have hya : y = a := (hp y (List.mem_cons_of_mem _ hy)).1 hpy
          rw [heq] at hya
          exact hx (hya ▸ hy)
        rw [List.countP_cons, hzero, hpx]
        simp
      · have hpx : p x = false := by
          cases hv : p x
          · rfl
          · have hxa : x = a := (hp x (List.mem_cons_self x l)).1 hv
            exact absurd (hxa ▸ hmem2) hx
        have hrec := ih hmem2 hnd2 (fun y hy => hp y (List.mem_cons_of_mem _ hy))
        rw [List.countP_cons, hpx, hrec]
        simp

/-- C1: for every pair of structured extractions sharing a pricing context
key (first 100 characters of context, case-folded) where both raw prices
parse numerically, the previous value is positive, and the current value
exceeds the previous by more than 10% (computed as
`(current - previous)/previous`), `diff_structured` returns severity HIGH,
confidence at least 0.9, and `pricing_changes` holds exactly one entry for
that pair, carrying `percent_change = (current - previous)/previous`. -/
theorem C1_pricing_increase_high_severity
    (prev curr : ExtractionDict) (k : String) (pitem citem : PricingItem) (p c : ℚ)
    (hprev : lookupIdx (_index_pricing prev.pricing) k = some pitem)
    (hcurr : lookupIdx (_index_pricing curr.pricing) k = some citem)
    (hp : _normalize_price pitem.raw = some p)
    (hc : _normalize_price citem.raw = some c)
    (hpos : 0 < p)
    (hinc : (c - p) / p > 0.10) :
    (diff_structured prev curr).severity = .high ∧
    (diff_structured prev curr).confidence ≥ 0.9 ∧
    ((diff_structured prev curr).structured_changes.pricing_changes.countP
        (fun e => decide (e.previous = pitem))) = 1 ∧
    (⟨pitem, citem, c - p, (c - p) / p⟩ : PriceChange) ∈
      (diff_structured prev curr).structured_changes.pricing_changes := by
  have habs : |(c - p) / p| > 0.001 := by
    have h1 : (0.001 : ℚ) < (c - p) / p := lt_trans (by norm_num) hinc
    exact lt_of_lt_of_le h1 (le_abs_self _)
  have hmem : (k, pitem) ∈ _index_pricing prev.pricing := lookupIdx_mem hprev
  have hkey : k = pricingKey pitem := index_key_inv prev.pricing (k, pitem) hmem
  have hE : entryFor (_index_pricing curr.pricing) (k, pitem) =
      some ⟨pitem, citem, c - p, (c - p) / p⟩ := by
    simp [entryFor, hcurr, hp, hc, hpos, habs]
  have hS : sigFor (_index_pricing curr.pricing) (k, pitem) = true := by
    simp [sigFor, hE, hinc]
  have hany : (_index_pricing prev.pricing).any
      (sigFor (_index_pricing curr.pricing)) = true :=
    List.any_eq_true.2 ⟨(k, pitem), hmem, hS⟩
  have hanyRE : ((_index_pricing prev.pricing).any
      (fun kv => (removedFor (_index_pricing curr.pricing) kv).isSome ||
        (entryFor (_index_pricing curr.pricing) kv).isSome)) = true :=
    List.any_eq_true.2 ⟨(k, pitem), hmem, by simp [hE]⟩
  have hmemE : (⟨pitem, citem, c - p, (c - p) / p⟩ : PriceChange) ∈
      (_index_pricing prev.pricing).filterMap
        (entryFor (_index_pricing curr.pricing)) :=
    List.mem_filterMap.2 ⟨(k, pitem), hmem, hE⟩
  have hne : (_index_pricing prev.pricing).filterMap
      (entryFor (_index_pricing curr.pricing)) ≠ [] := by
    intro hnil
    rw [hnil] at hmemE
    cases hmemE
  have hD : diff_structured prev curr =
      { change_detected := true
        requires_llm := false
        confidence := max 0.8 0.9
        structured_changes :=
          { pricing_changes :=
              (_index_pricing prev.pricing).filterMap
                (entryFor (_index_pricing curr.pricing))
            new_plans :=
              (_index_pricing curr.pricing).filterMap
                (newPlanFor (_index_pricing prev.pricing))
            removed_plans :=
              (_index_pricing prev.pricing).filterMap
                (removedFor (_index_pricing curr.pricing))
            heading_changes :=
              if prev.headings.map (fun h => h.text) ≠
                  curr.headings.map (fun h => h.text) then
                some ⟨prev.headings.map (fun h => h.text),
                      curr.headings.map (fun h => h.text)⟩
              else none
            feature_changes :=
              if setDiffSorted curr.features.flatten prev.features.flatten ≠ [] ∨
                  setDiffSorted prev.features.flatten curr.features.flatten ≠ [] then
                some ⟨setDiffSorted curr.features.flatten prev.features.flatten,
                      setDiffSorted prev.features.flatten curr.features.flatten⟩
              else none
            table_changes :=
              if prev.tables ≠ curr.tables then
                some ⟨prev.tables.length, curr.tables.length⟩
              else none }
        severity := .high } := by
    simp only [diff_structured]
    rw [pricingFold (_index_pricing curr.pricing) (_index_pricing prev.pricing) _
        (Or.inl rfl), newPlanFold]
    simp [hany, hanyRE, hne]
  refine ⟨by rw [hD], by rw [hD]; exact le_max_right 0.8 0.9, ?_, by rw [hD]; exact hmemE⟩
  rw [hD]
  show ((_index_pricing prev.pricing).filterMap
      (entryFor (_index_pricing curr.pricing))).countP
      (fun e => decide (e.previous = pitem)) = 1
  rw [countP_filterMap]
  refine countP_eq_one_of_unique _ (k, pitem) _ hmem
    (List.Pairwise.imp (fun hR heq => hR (congrArg Prod.fst heq))
      (index_keys_pairwise prev.pricing)) ?_
  intro x hx
  constructor
  · intro hq
    rcases hE2 : entryFor (_index_pricing curr.pricing) x with _ | e
    · rw [hE2] at hq
      cases hq
    · rw [hE2] at hq
      have hprev2 : e.previous = pitem := by simpa using hq
      have hx2 : x.2 = pitem := by
        rw [← entryFor_previous hE2, hprev2]
      have hx1 : x.1 = k := by
        rw [index_key_inv prev.pricing x hx, hx2, ← hkey]
      rw [Prod.ext_iff]
      exact ⟨hx1, hx2⟩
  · intro hxeq
    rw [hxeq, hE]
    simp

/-- Scenario A previous pricing signal ($29, context "Pro Plan pricing"). -/
def piC1 : PricingItem :=
  ⟨"$29", some "$", false, some "per month", "Pro Plan pricing"⟩

/-- Scenario A current pricing signal ($35, same context). -/
def ciC1 : PricingItem :=
  ⟨"$35", some "$", false, some "per month", "Pro Plan pricing"⟩

/-- Scenario A previous extraction. -/
def prevC1 : ExtractionDict :=
  { pricing := [piC1], headings := [], features := [], tables := [],
    clean_text := "Pro Plan pricing $29/month" }

/-- Scenario A current extraction. -/
def currC1 : ExtractionDict :=
  { pricing := [ciC1], headings := [], features := [], tables := [],
    clean_text := "Pro Plan pricing $35/month" }

theorem C1_pricing_increase_high_severity_witness :
    lookupIdx (_index_pricing prevC1.pricing) "pro plan pricing" = some piC1 ∧
    _normalize_price piC1.raw = some 29 ∧
    (0 : ℚ) < 29 ∧ ((35 : ℚ) - 29) / 29 > 0.10 ∧
    ((diff_structured prevC1 currC1).severity = .high ∧
      (diff_structured prevC1 currC1).confidence ≥ 0.9 ∧
      ((diff_structured prevC1 currC1).structured_changes.pricing_changes.countP
          (fun e => decide (e.previous = piC1))) = 1 ∧
      (⟨piC1, ciC1, 35 - 29, (35 - 29) / 29⟩ : PriceChange) ∈
        (diff_structured prevC1 currC1).structured_changes.pricing_changes) :=
  ⟨by decide, by decide, by norm_num, by norm_num,
   C1_pricing_increase_high_severity prevC1 currC1 "pro plan pricing" piC1 ciC1
     29 35 (by decide) (by decide) (by decide) (by decide) (by norm_num)
     (by norm_num)⟩

/-- C3: `decide_llm_required` (with the default thresholds) returns
`requires_llm = false` with reason "deterministic_confident" whenever the
deterministic confidence is at least 0.70, neither extraction has a pricing
signal, and the text-divergence ratio (`_content_diff_ratio`, which is 1 for
an empty-vs-nonempty pair, 0 for two empty texts, and 1 minus the normalized
similarity otherwise) is at most 0.30. -/
theorem C3_router_never_escalates_when_confident
    (sim : String → String → ℚ) (prevS currS : ExtractionDict)
    (prevText currText : String) (conf : ℚ)
    (hconf : conf ≥ 0.70)
    (hprev : prevS.pricing = [])
    (hcurr : currS.pricing = [])
    (hratio : _content_diff_ratio sim prevText currText ≤ 0.30) :
    decide_llm_required sim prevS currS prevText currText conf none =
      { requires_llm := false, reason := "deterministic_confident" } := by
  have hr : ¬(_content_diff_ratio sim prevText currText >
      defaultRouterConfig.diff_ratio_threshold) := by
    simp only [defaultRouterConfig]
    exact not_lt.2 hratio
  have hb : ¬(conf < defaultRouterConfig.confidence_threshold) := by
    simp only [defaultRouterConfig]
    exact not_lt.2 hconf
  simp [decide_llm_required, hr, hb]

theorem C3_router_never_escalates_when_confident_witness :
    (0.8 : ℚ) ≥ 0.70 ∧
    _content_diff_ratio (fun _ _ => 0) "" "" ≤ 0.30 ∧
    decide_llm_required (fun _ _ => 0) emptyExtraction emptyExtraction "" ""
        0.8 none =
      { requires_llm := false, reason := "deterministic_confident" } :=
  ⟨by norm_num, by norm_num [_content_diff_ratio],
   C3_router_never_escalates_when_confident (fun _ _ => 0) emptyExtraction
     emptyExtraction "" "" 0.8 (by norm_num) rfl rfl
     (by norm_num [_content_diff_ratio])⟩

theorem diff_structured_closed (prev curr : ExtractionDict) :
    diff_structured prev curr =
      (let pI := _index_pricing prev.pricing
       let cI := _index_pricing curr.pricing
       let entries := pI.filterMap (entryFor cI)
       let newPlans := cI.filterMap (newPlanFor pI)
       let removedPlans := pI.filterMap (removedFor cI)
       let anySig := pI.any (sigFor cI)
       let sev1 := if Severity.low = Severity.low ∧ anySig = true then
           Severity.high else Severity.low
       let conf1 := if Severity.low = Severity.low ∧ anySig = true then
           max (0.8 : ℚ) 0.9 else (0.8 : ℚ)
       let anyNew := cI.any (fun kv => (newPlanFor pI kv).isSome)
       let sev2 := if sev1 = Severity.low ∧ anyNew = true then Severity.medium else sev1
       let anyRE := pI.any
         (fun kv => (removedFor cI kv).isSome || (entryFor cI kv).isSome)
       let prevHeads := prev.headings.map (fun h => h.text)
       let currHeads := curr.headings.map (fun h => h.text)
       let hcs := if prevHeads ≠ currHeads then
           some (⟨prevHeads, currHeads⟩ : HeadingChanges) else none
       let added := setDiffSorted curr.features.flatten prev.features.flatten
       let removedF := setDiffSorted prev.features.flatten curr.features.flatten
       let fcs := if added ≠ [] ∨ removedF ≠ [] then
           some (⟨added, removedF⟩ : FeatureChanges) else none
       let tcs := if prev.tables ≠ curr.tables then
           some (⟨prev.tables.length, curr.tables.length⟩ : TableChanges) else none
       let det5 := (((false || anyRE) || anyNew) || decide (prevHeads ≠ currHeads) ||
           decide (added ≠ [] ∨ removedF ≠ [])) || decide (prev.tables ≠ curr.tables)
       let confD := if det5 = false then (0.6 : ℚ) else conf1
       let final := if entries = [] ∧ newPlans = [] ∧ removedPlans = [] ∧
           (hcs.isSome ∨ fcs.isSome) then (Severity.low, max confD 0.75)
         else (sev2, confD)
       { change_detected := det5
         requires_llm := false
         confidence := final.2
         structured_changes := ⟨entries, newPlans, removedPlans, hcs, fcs, tcs⟩
         severity := final.1 }) := by
  simp only [diff_structured]
  rw [pricingFold (_index_pricing curr.pricing) (_index_pricing prev.pricing) _
      (Or.inl rfl), newPlanFold]
  simp only [eq_self_iff_true, true_and]
  simp

theorem self_index_inert (ps : List PricingItem) :
    ∀ kv ∈ _index_pricing ps,
      entryFor (_index_pricing ps) kv = none ∧
      removedFor (_index_pricing ps) kv = none ∧
      newPlanFor (_index_pricing ps) kv = none ∧
      sigFor (_index_pricing ps) kv = false := by
  intro kv hkv
  have hlook : lookupIdx (_index_pricing ps) kv.1 = some kv.2 :=
    mem_lookupIdx (index_keys_pairwise ps) hkv
  have hE : entryFor (_index_pricing ps) kv = none := by
    rcases hp : _normalize_price kv.2.raw with _ | p
    · simp [entryFor, hlook, hp]
    · by_cases hpos : 0 < p
      · have hlt : ¬ |(p - p) / p| > (0.001 : ℚ) := by
          rw [sub_self, zero_div, abs_zero]
          norm_num
        simp [entryFor, hlook, hp, hpos, hlt]
        norm_num
      · simp [entryFor, hlook, hp, hpos]
  exact ⟨hE, by simp [removedFor, hlook], by simp [newPlanFor, hlook],
         by simp [sigFor, hE]⟩

theorem setDiffSorted_self (l : List String) : setDiffSorted l l = [] := by
  unfold setDiffSorted
  have hfilter : l.filter (fun x => ¬ l.contains x) = [] := by
    rw [List.filter_eq_nil_iff]
    intro a ha
    simp [ha]
  rw [hfilter]
  rfl

theorem diff_conf_of_not_detected (prev curr : ExtractionDict)
    (h : (diff_structured prev curr).change_detected = false) :
    (diff_structured prev curr).confidence = 0.6 := by
  rw [diff_structured_closed] at h ⊢
  simp only [Bool.or_eq_false_iff, decide_eq_false_iff_not, not_not] at h
  obtain ⟨⟨⟨⟨hRE, hNew⟩, hHeads⟩, hFeat⟩, hTables⟩ := h
  have hAdded : setDiffSorted curr.features.flatten prev.features.flatten = [] ∧
      setDiffSorted prev.features.flatten curr.features.flatten = [] := by
    by_cases ha : setDiffSorted curr.features.flatten prev.features.flatten = [] <;>
      by_cases hb : setDiffSorted prev.features.flatten curr.features.flatten = []
    · exact ⟨ha, hb⟩
    · exact absurd (Or.inr hb) hFeat
    · exact absurd (Or.inl ha) hFeat
    · exact absurd (Or.inl ha) hFeat
  simp [hRE, hNew, hHeads, hAdded.1, hAdded.2, hTables]

theorem diff_conf_of_detected (prev curr : ExtractionDict)
    (h : (diff_structured prev curr).change_detected = true) :
    (diff_structured prev curr).confidence = 0.8 ∨
    (diff_structured prev curr).confidence = 0.9 := by
  rw [diff_structured_closed] at h ⊢
  simp only [] at h ⊢
  by_cases hsig : (_index_pricing prev.pricing).any
      (sigFor (_index_pricing curr.pricing)) = true <;>
    by_cases hfin : (_index_pricing prev.pricing).filterMap
          (entryFor (_index_pricing curr.pricing)) = [] ∧
        (_index_pricing curr.pricing).filterMap
          (newPlanFor (_index_pricing prev.pricing)) = [] ∧
        (_index_pricing prev.pricing).filterMap
          (removedFor (_index_pricing curr.pricing)) = [] ∧
        (((if prev.headings.map (fun h => h.text) ≠
              curr.headings.map (fun h => h.text) then
            some (⟨prev.headings.map (fun h => h.text),
                   curr.headings.map (fun h => h.text)⟩ : HeadingChanges)
          else none).isSome = true) ∨
         ((if setDiffSorted curr.features.flatten prev.features.flatten ≠ [] ∨
              setDiffSorted prev.features.flatten curr.features.flatten ≠ [] then
            some (⟨setDiffSorted curr.features.flatten prev.features.flatten,
                   setDiffSorted prev.features.flatten curr.features.flatten⟩ :
                     FeatureChanges)
          else none).isSome = true)) <;>
      simp only [h, hsig, hfin, if_true, if_false, if_pos, if_neg,
        not_false_iff, Bool.true_eq_false] <;>
      simp [h, hsig, hfin] <;>
      norm_num

/-- C8: for every pair of extractions with identical pricing, headings,
features and tables content, `diff_structured` returns
`change_detected = false` with confidence 0.6; and the 0.6 confidence is
returned exactly in the no-change case (a detected change always yields
confidence 0.8 or 0.9). -/
theorem C8_identical_content_no_change :
    (∀ prev curr : ExtractionDict,
      prev.pricing = curr.pricing → prev.headings = curr.headings →
      prev.features = curr.features → prev.tables = curr.tables →
      (diff_structured prev curr).change_detected = false ∧
      (diff_structured prev curr).confidence = 0.6) ∧
    (∀ prev curr : ExtractionDict,
      ((diff_structured prev curr).change_detected = false ↔
        (diff_structured prev curr).confidence = 0.6)) := by
  constructor
  · intro prev curr h1 h2 h3 h4
    rw [diff_structured_closed, ← h1, ← h2, ← h3, ← h4]
    have hfacts := self_index_inert prev.pricing
    have hEnil : List.filterMap (entryFor (_index_pricing prev.pricing))
        (_index_pricing prev.pricing) = [] :=
      List.filterMap_eq_nil_iff.2 (fun kv hkv => (hfacts kv hkv).1)
    have hRnil : List.filterMap (removedFor (_index_pricing prev.pricing))
        (_index_pricing prev.pricing) = [] :=
      List.filterMap_eq_nil_iff.2 (fun kv hkv => (hfacts kv hkv).2.1)
    have hNnil : List.filterMap (newPlanFor (_index_pricing prev.pricing))
        (_index_pricing prev.pricing) = [] :=
      List.filterMap_eq_nil_iff.2 (fun kv hkv => (hfacts kv hkv).2.2.1)
    have hanyRE : ((_index_pricing prev.pricing).any
        (fun kv => (removedFor (_index_pricing prev.pricing) kv).isSome ||
          (entryFor (_index_pricing prev.pricing) kv).isSome)) = false := by
      rw [List.any_eq_false]
      intro kv hkv
      simp [(hfacts kv hkv).1, (hfacts kv hkv).2.1]
    have hanyNew : ((_index_pricing prev.pricing).any
        (fun kv => (newPlanFor (_index_pricing prev.pricing) kv).isSome)) = false := by
      rw [List.any_eq_false]
      intro kv hkv
      simp [(hfacts kv hkv).2.2.1]
    have hsig : (_index_pricing prev.pricing).any
        (sigFor (_index_pricing prev.pricing)) = false := by
      rw [List.any_eq_false]
      intro kv hkv
      simp [(hfacts kv hkv).2.2.2]
    simp [hEnil, hRnil, hNnil, hanyRE, hanyNew, hsig, setDiffSorted_self]
  · intro prev curr
    cases hdet : (diff_structured prev curr).change_detected with
    | false =>
        exact ⟨fun _ => diff_conf_of_not_detected prev curr hdet, fun _ => rfl⟩
    | true =>
        constructor
        · intro h
          exact absurd h (by decide)
        · intro hconf
          rcases diff_conf_of_detected prev curr hdet with hc | hc <;>
            rw [hc] at hconf <;> norm_num at hconf

theorem C8_identical_content_no_change_witness :
    (diff_structured emptyExtraction emptyExtraction).change_detected = false ∧
    (diff_structured emptyExtraction emptyExtraction).confidence = 0.6 :=
  C8_identical_content_no_change.1 emptyExtraction emptyExtraction rfl rfl rfl rfl

/-- C9: `extract_structured` never raises — it is a total function into
`ExtractionDict` for every input and every behaviour of the underlying
parser — and whenever the input is `None`/empty or the parse body raises,
it returns the all-empty extraction (empty pricing, headings, features and
tables, and empty clean text). -/
theorem C9_extract_structured_absorbs_failures
    (attempt : String → Except Unit ExtractionDict) (html : Option String)
    (h : html = none ∨ html = some "" ∨
      ∃ e, attempt (html.getD "") = Except.error e) :
    extract_structured attempt html = emptyExtraction := by
  rcases h with h | h | ⟨e, h⟩
  · rw [h]; rfl
  · rw [h]; rfl
  · unfold extract_structured
    by_cases hT : pyTruthy html = false
    · rw [if_pos hT]
    · rw [if_neg hT, h]

theorem C9_extract_structured_absorbs_failures_witness :
    ((some "<div>" : Option String) = none ∨ (some "<div>" : Option String) = some "" ∨
      ∃ e, (fun _ : String => (Except.error () : Except Unit ExtractionDict))
        ((some "<div>" : Option String).getD "") = Except.error e) ∧
    extract_structured (fun _ => Except.error ()) (some "<div>") = emptyExtraction :=
  ⟨Or.inr (Or.inr ⟨(), rfl⟩),
   C9_extract_structured_absorbs_failures (fun _ => Except.error ()) (some "<div>")
     (Or.inr (Or.inr ⟨(), rfl⟩))⟩

theorem fetchAttempts_all_fail (env : FetchEnv) (url : String) :
    ∀ (rem i : Nat) (last : Option Nat × Option String × Option String),
    (∀ j, i ≤ j → j < i + rem →
      (_fetch_once env.urlValid (env.outcomes j)).success = false) →
    ∃ last2, fetchAttempts env url i rem last = .inr last2 := by
  intro rem
  induction rem with
  | zero => intro i last hfail; exact ⟨last, rfl⟩
  | succ rem ih =>
      intro i last hfail
      have hi : (_fetch_once env.urlValid (env.outcomes i)).success = false :=
        hfail i (le_refl i) (by omega)
      simp only [fetchAttempts, hi, Bool.false_eq_true, if_false]
      exact ih (i + 1) _ (fun j h1 h2 => hfail j (by omega) (by omega))

theorem fetch_with_playwright_tagged (pw : PwEnv) (url : String) :
    (fetch_with_playwright pw url).from_playwright = true := by
  unfold fetch_with_playwright
  cases hI : pw.initError <;> simp [hI]

/-- C6 (amended): when the URL is valid, all primary attempts fail and the
Playwright fallback is permitted, `fetch_page` delegates exactly once to the
fallback and returns its result verbatim except that `attempt_count` is
overwritten with the number of primary attempts (`max 1 settings.MAX_RETRIES`)
— not the primary attempts plus one. -/
theorem C6_playwright_fallback_delegation (env : FetchEnv) (url : String)
    (hvalid : env.urlValid = true)
    (hfail : ∀ j, 1 ≤ j → j ≤ maxRetriesOf env →
      (_fetch_once env.urlValid (env.outcomes j)).success = false) :
    fetch_page env url true =
      ({ fetch_with_playwright env.pw url with
          attempt_count := maxRetriesOf env }, 1) ∧
    (fetch_page env url true).1.from_playwright = true := by
  obtain ⟨last2, hlast⟩ :=
    fetchAttempts_all_fail env url (maxRetriesOf env) 1 (none, none, none)
      (fun j h1 h2 => hfail j h1 (by omega))
  have hmain : fetch_page env url true =
      ({ fetch_with_playwright env.pw url with
          attempt_count := maxRetriesOf env }, 1) := by
    unfold fetch_page
    rw [if_neg (by simp [hvalid]), hlast]
    rfl
  refine ⟨hmain, ?_⟩
  rw [hmain]
  simpa using fetch_with_playwright_tagged env.pw url

/-- Environment for the C6 scenario: a valid URL whose three primary
attempts all time out, with a healthy Playwright fallback. -/
def envC6 : FetchEnv :=
  { urlValid := true, settingsMaxRetries := 3, outcomes := fun _ => .timeout,
    pw := { initError := none,
            scrape := { urlValid := true,
                        page := .ok ⟨some 200, "Title", "<html>app</html>", "app"⟩ },
            elapsedMs := 7 },
    elapsedMs := 12 }

theorem C6_playwright_fallback_delegation_counterexample :
    (fetch_page envC6 "http://example.com" true).2 = 1 ∧
    (fetch_page envC6 "http://example.com" true).1.from_playwright = true ∧
    (fetch_page envC6 "http://example.com" true).1.attempt_count = 3 ∧
    ¬ ((fetch_page envC6 "http://example.com" true).1.attempt_count = 3 + 1) := by
  decide

theorem C6_playwright_fallback_delegation_witness :
    envC6.urlValid = true ∧
    (fetch_page envC6 "http://example.com" true =
      ({ fetch_with_playwright envC6.pw "http://example.com" with
          attempt_count := maxRetriesOf envC6 }, 1) ∧
     (fetch_page envC6 "http://example.com" true).1.from_playwright = true) :=
  ⟨rfl, C6_playwright_fallback_delegation envC6 "http://example.com" rfl
    (fun j h1 h2 => rfl)⟩

theorem _fetch_once_success {urlValid : Bool} {o : HttpOutcome}
    (h : (_fetch_once urlValid o).success = true) :
    (_fetch_once urlValid o).error = none ∧
    ∃ s, (_fetch_once urlValid o).html = some s ∧ s ≠ "" := by
  unfold _fetch_once at h ⊢
  by_cases hv : urlValid = false
  · rw [if_pos hv] at h; cases h
  · rw [if_neg hv] at h ⊢
    cases o with
    | response status text =>
        dsimp only at h ⊢
        by_cases hc : 200 ≤ status ∧ status < 400 ∧ text ≠ ""
        · rw [if_pos hc]
          exact ⟨rfl, text, rfl, hc.2.2⟩
        · rw [if_neg hc] at h; cases h
    | timeout => cases h
    | exn msg => cases h

theorem fetchAttempts_inl (env : FetchEnv) (url : String) :
    ∀ (rem i : Nat) (last : Option Nat × Option String × Option String)
      (r : FetchResult),
    fetchAttempts env url i rem last = .inl r →
    r.error = none ∧ (∃ s, r.html = some s ∧ s ≠ "") ∧
    r.from_playwright = false ∧ r.success = true := by
  intro rem
  induction rem with
  | zero => intro i last r h; cases h
  | succ rem ih =>
      intro i last r h
      rcases hs : (_fetch_once env.urlValid (env.outcomes i)).success with _ | _
      · simp only [fetchAttempts, hs, Bool.false_eq_true, if_false] at h
        exact ih (i + 1) _ r h
      · simp only [fetchAttempts, hs, if_true] at h
        obtain ⟨_, s, hhtml, hs2⟩ := _fetch_once_success hs
        injection h with h2
        rw [← h2]
        exact ⟨rfl, ⟨s, hhtml, hs2⟩, rfl, rfl⟩

theorem fetch_with_playwright_success (pw : PwEnv) (url : String)
    (h : (fetch_with_playwright pw url).success = true) :
    (fetch_with_playwright pw url).error = none ∧
    ∃ s, (fetch_with_playwright pw url).html = some s := by
  obtain ⟨initError, ⟨urlValid, page⟩, elapsedMs⟩ := pw
  cases initError with
  | some e => simp [fetch_with_playwright] at h
  | none =>
      cases urlValid with
      | false => simp [fetch_with_playwright, scrape_page] at h
      | true =>
          cases page with
          | error e => simp [fetch_with_playwright, scrape_page] at h
          | ok pd => exact ⟨rfl, pd.content, rfl⟩

/-- C10 (amended): every `FetchResult` with `success = true` has a null
`error`, and its `html` field is populated; on the primary HTTP path the
html is additionally non-empty, while a fallback-renderer result carries
whatever content string the external renderer produced — which the code
does not check for emptiness. -/
theorem C10_success_invariant :
    (∀ (env : FetchEnv) (url : String) (fb : Bool),
      (fetch_page env url fb).1.success = true →
      (fetch_page env url fb).1.error = none ∧
      ∃ s, (fetch_page env url fb).1.html = some s ∧
        ((fetch_page env url fb).1.from_playwright = false → s ≠ "")) ∧
    (∀ (pw : PwEnv) (url : String),
      (fetch_with_playwright pw url).success = true →
      (fetch_with_playwright pw url).error = none) := by
  constructor
  · intro env url fb h
    unfold fetch_page at h ⊢
    by_cases hv : env.urlValid = false
    · rw [if_pos hv] at h; cases h
    · rw [if_neg hv] at h ⊢
      cases hA : fetchAttempts env url 1 (maxRetriesOf env) (none, none, none) with
      | inl r =>
          dsimp only at h ⊢
          obtain ⟨herr, ⟨s, hhtml, hne⟩, hpw, _⟩ :=
            fetchAttempts_inl env url _ 1 _ r hA
          exact ⟨herr, s, hhtml, fun _ => hne⟩
      | inr last =>
          rw [hA] at h
          cases fb with
          | false => simp at h
          | true =>
              dsimp only at h ⊢
              simp only [eq_self_iff_true, ite_true] at h ⊢
              obtain ⟨herr, s, hhtml⟩ := fetch_with_playwright_success env.pw url h
              refine ⟨herr, s, hhtml, fun hfp => ?_⟩
              rw [fetch_with_playwright_tagged env.pw url] at hfp
              cases hfp
  · intro pw url h
    exact (fetch_with_playwright_success pw url h).1

/-- Environment for the C10 counterexample: all primary attempts time out
and the fallback renderer completes with empty page content. -/
def envC10 : FetchEnv :=
  { urlValid := true, settingsMaxRetries := 3, outcomes := fun _ => .timeout,
    pw := { initError := none,
            scrape := { urlValid := true, page := .ok ⟨some 200, "T", "", ""⟩ },
            elapsedMs := 4 },
    elapsedMs := 9 }

theorem C10_success_invariant_counterexample :
    (fetch_page envC10 "http://example.com" true).1.success = true ∧
    (fetch_page envC10 "http://example.com" true).1.html = some "" := by
  decide

/-- Environment for the C10 witness: the first primary attempt succeeds. -/
def envC10w : FetchEnv :=
  { urlValid := true, settingsMaxRetries := 3,
    outcomes := fun _ => .response 200 "<html>ok</html>",
    pw := { initError := some "unused",
            scrape := { urlValid := true, page := .error "unused" },
            elapsedMs := 1 },
    elapsedMs := 2 }

theorem C10_success_invariant_witness :
    (fetch_page envC10w "http://example.com" false).1.success = true ∧
    ((fetch_page envC10w "http://example.com" false).1.error = none ∧
     ∃ s, (fetch_page envC10w "http://example.com" false).1.html = some s ∧
       ((fetch_page envC10w "http://example.com" false).1.from_playwright = false →
         s ≠ "")) :=
  ⟨by decide,
   C10_success_invariant.1 envC10w "http://example.com" false (by decide)⟩

/-- C2: when the current snapshot succeeded with non-empty cleaned text, a
previous snapshot exists, the content hashes are equal, and the fast-path
commit succeeds, `detect_and_analyze_changes` emits the fixed no-change
record (change_detected false, severity LOW, confidence 0.9, requires_llm
false, empty structured diff) and invokes neither the extractor, the diff
engine, the router, nor any semantic backend (all stage counters are 0). -/
theorem C2_fastpath_short_circuit
    (env : OrchEnv) (cur : Snapshot) (page : MonitoredPage) (prevSnap : Snapshot)
    (hsucc : cur.success = true)
    (htext : pyTruthy cur.cleaned_text = true)
    (hprev : env.previousSnapshot = some prevSnap)
    (hhash : cur.content_hash = prevSnap.content_hash)
    (hcommit : env.fastCommitOk = true) :
    detect_and_analyze_changes env cur page =
      (.ok (some
        { monitored_page_id := page.id, snapshot_id := cur.id,
          change_detected := false, summary := "No changes detected",
          change_type := .other, severity := .low, severity_score := 1,
          business_impact := none, recommended_action := none,
          structured_diff := none, llm_analysis := none, requires_llm := false,
          confidence := 0.9, diff_preview := none,
          human_readable_comparison := none }), ⟨0, 0, 0, 0, 0⟩) := by
  unfold detect_and_analyze_changes
  rw [if_neg (by simp [hsucc, htext]), hprev]
  dsimp only
  rw [if_pos hhash, if_pos hcommit]

/-- C2 witness snapshots and environment: identical content hashes. -/
def curC2 : Snapshot :=
  ⟨2, true, some "hello world", some "<p>hello world</p>", some "h1", some "T"⟩

def prevC2 : Snapshot :=
  ⟨1, true, some "hello world", some "<p>hello world</p>", some "h1", some "T"⟩

def pageC2 : MonitoredPage := ⟨10, some "http://example.com", some "T", none⟩

def envC2 : OrchEnv :=
  { previousSnapshot := some prevC2, extractAttempt := fun _ => .error (),
    sim := fun _ _ => 0, groqEnabled := false, groqResponse := none,
    openaiConfigured := false, inDepth := .error "unused",
    fastCommitOk := true, finalCommitOk := true }

theorem C2_fastpath_short_circuit_witness :
    curC2.success = true ∧ pyTruthy curC2.cleaned_text = true ∧
    envC2.previousSnapshot = some prevC2 ∧
    curC2.content_hash = prevC2.content_hash ∧
    detect_and_analyze_changes envC2 curC2 pageC2 =
      (.ok (some
        { monitored_page_id := pageC2.id, snapshot_id := curC2.id,
          change_detected := false, summary := "No changes detected",
          change_type := .other, severity := .low, severity_score := 1,
          business_impact := none, recommended_action := none,
          structured_diff := none, llm_analysis := none, requires_llm := false,
          confidence := 0.9, diff_preview := none,
          human_readable_comparison := none }), ⟨0, 0, 0, 0, 0⟩) :=
  ⟨rfl, by decide, rfl, rfl,
   C2_fastpath_short_circuit envC2 curC2 pageC2 prevC2 rfl (by decide) rfl rfl rfl⟩

/-- C4 (amended): when the fast tier returns a non-null analysis, its
change_detected, change_type, severity, business_impact, recommended_action
and confidence values replace the deterministic equivalents in the merged
state (change_type/severity via their enum constructors, which is where they
must parse); `summary` is NOT replaced: the Groq adapter's normalized
analysis never carries a `summary` key, and the merge keeps the placeholder
"Change detected" whenever the analysis's summary is empty or missing. -/
theorem C4_fast_tier_merge_replacement :
    (∀ (diffR : DiffResult) (d : LLMDict) (st : MergeState),
      mergeLLM diffR (some d) = .ok st →
      st.change_detected = d.change_detected.getD diffR.change_detected ∧
      st.summary = pyOr (d.summary.getD "Change detected") "Change detected" ∧
      st.business_impact = pyOr (d.business_impact.getD "") "" ∧
      st.recommended_action = pyOr (d.recommended_action.getD "") "" ∧
      st.confidence = d.confidence.getD diffR.confidence ∧
      st.severity_score = severityScore st.severity ∧
      ChangeType.ofString (d.change_type.getD "other") = some st.change_type ∧
      Severity.ofString (d.severity.getD diffR.severity.val) = some st.severity) ∧
    (∀ raw : RawGroqJson, (groqNormalize raw).summary = none) := by
  constructor
  · intro diffR d st h
    unfold mergeLLM at h
    dsimp only at h
    rcases hct : ChangeType.ofString (d.change_type.getD "other") with _ | ct <;>
      rw [hct] at h
    · cases h
    · rcases hsev : Severity.ofString (d.severity.getD diffR.severity.val)
        with _ | sev <;> rw [hsev] at h
      · cases h
      · injection h with h2
        rw [← h2]
        exact ⟨rfl, rfl, rfl, rfl, rfl, rfl, rfl, rfl⟩
  · intro raw
    rfl

/-- C4 scenario: previous/current snapshots with different hashes. -/
def prevC4 : Snapshot := ⟨1, true, some "text a", none, some "ha", some "T"⟩

def curC4 : Snapshot := ⟨2, true, some "text b", none, some "hb", some "T"⟩

def pageC4 : MonitoredPage := ⟨10, some "http://example.com", none, none⟩

/-- C4 scenario: the Groq model's JSON reply, including a summary the
adapter's normalization drops. -/
def rawC4 : RawGroqJson :=
  { change_detected := some true, change_type := some "pricing",
    severity := some "high",
    business_impact := some "Competitor raised prices across plans.",
    recommended_action := some "Review our pricing against competitor plans.",
    confidence := some 0.95, summary := some "Prices went up" }

def envC4 : OrchEnv :=
  { previousSnapshot := some prevC4,
    extractAttempt := fun _ => .ok emptyExtraction,
    sim := fun _ _ => 1, groqEnabled := true, groqResponse := some rawC4,
    openaiConfigured := false, inDepth := .error "unused",
    fastCommitOk := true, finalCommitOk := true }

theorem routerC4_requires_llm :
    decide_llm_required envC4.sim emptyExtraction emptyExtraction
      "text a" "text b" (0.6 : ℚ) none =
    { requires_llm := true,
      reason := "low_confidence (" ++ fmt2 (0.6 : ℚ) ++ ")" } := by
  have hratio : _content_diff_ratio envC4.sim "text a" "text b" = 0 := by
    unfold _content_diff_ratio
    rw [if_neg (by decide)]
    norm_num [envC4]
  unfold decide_llm_required
  dsimp only
  rw [if_neg, if_pos]
  · show (0.6 : ℚ) < (Option.getD none defaultRouterConfig).confidence_threshold
    norm_num [defaultRouterConfig]
  · intro hand
    rw [hratio] at hand
    have := hand.2
    norm_num [defaultRouterConfig] at this

theorem C4_fast_tier_merge_replacement_counterexample :
    envC4.groqResponse = some rawC4 ∧ rawC4.summary = some "Prices went up" ∧
    ∃ rec, (detect_and_analyze_changes envC4 curC4 pageC4).1 = .ok (some rec) ∧
      rec.llm_analysis.isSome = true ∧
      rec.summary = "Change detected" ∧ rec.summary ≠ "Prices went up" := by
  refine ⟨rfl, rfl, ?_⟩
  have hextA : extract_structured envC4.extractAttempt
      (some (pyOrOpt prevC4.raw_html "text a")) = emptyExtraction := by decide
  have hextB : extract_structured envC4.extractAttempt
      (some (pyOrOpt curC4.raw_html "text b")) = emptyExtraction := by decide
  have hdiff : diff_structured emptyExtraction emptyExtraction =
      ⟨false, false, 0.6, ⟨[], [], [], none, none, none⟩, .low⟩ := rfl
  have hpt : pyOrOpt prevC4.cleaned_text "" = "text a" := rfl
  have hct2 : pyOrOpt curC4.cleaned_text "" = "text b" := rfl
  have hgroq : groqAnalyzeChanges envC4.groqEnabled envC4.groqResponse =
      some (groqNormalize rawC4) := rfl
  have hmerge : mergeLLM
      (⟨false, false, 0.6, ⟨[], [], [], none, none, none⟩, .low⟩ : DiffResult)
      (some (groqNormalize rawC4)) =
      .ok ⟨true, .pricing, .high, 3, "Change detected",
           "Competitor raised prices across plans.",
           "Review our pricing against competitor plans.", 0.95⟩ := rfl
  have hfb : openaiFallbackStage
      (⟨true, .pricing, .high, 3, "Change detected",
        "Competitor raised prices across plans.",
        "Review our pricing against competitor plans.", 0.95⟩ : MergeState)
      envC4.openaiConfigured envC4.inDepth =
      (⟨true, .pricing, .high, 3, "Change detected",
        "Competitor raised prices across plans.",
        "Review our pricing against competitor plans.", 0.95⟩, none, false) := rfl
  unfold detect_and_analyze_changes
  rw [if_neg (by decide), show envC4.previousSnapshot = some prevC4 from rfl]
  dsimp only
  rw [if_neg (by decide)]
  simp only [hextA, hextB, hdiff, hpt, hct2, routerC4_requires_llm, hgroq,
    hmerge, hfb, Bool.and_self, if_true]
  exact ⟨_, rfl, rfl, rfl, by decide⟩

/-- C4 scenario: the deterministic diff of the two (empty) extractions. -/
def diffC4 : DiffResult :=
  ⟨false, false, 0.6, ⟨[], [], [], none, none, none⟩, .low⟩

/-- C4 scenario: the merged state after the fast-tier analysis. -/
def stC4 : MergeState :=
  ⟨true, .pricing, .high, 3, "Change detected",
   "Competitor raised prices across plans.",
   "Review our pricing against competitor plans.", 0.95⟩

theorem C4_fast_tier_merge_replacement_witness :
    mergeLLM diffC4 (some (groqNormalize rawC4)) = .ok stC4 ∧
    (stC4.change_detected =
        (groqNormalize rawC4).change_detected.getD diffC4.change_detected ∧
      stC4.summary =
        pyOr ((groqNormalize rawC4).summary.getD "Change detected")
          "Change detected" ∧
      stC4.business_impact = pyOr ((groqNormalize rawC4).business_impact.getD "") "" ∧
      stC4.recommended_action =
        pyOr ((groqNormalize rawC4).recommended_action.getD "") "" ∧
      stC4.confidence = (groqNormalize rawC4).confidence.getD diffC4.confidence ∧
      stC4.severity_score = severityScore stC4.severity ∧
      ChangeType.ofString ((groqNormalize rawC4).change_type.getD "other") =
        some stC4.change_type ∧
      Severity.ofString ((groqNormalize rawC4).severity.getD diffC4.severity.val) =
        some stC4.severity) ∧
    (groqNormalize rawC4).summary = none :=
  ⟨rfl,
   C4_fast_tier_merge_replacement.1 diffC4 (groqNormalize rawC4) stC4 rfl,
   C4_fast_tier_merge_replacement.2 rawC4⟩

theorem openaiFallbackStage_ok_closed (st : MergeState) (d : InDepthResp)
    (hn : _needs_openai_fallback st.change_detected st.business_impact
      st.recommended_action = true) :
    openaiFallbackStage st true (.ok d) =
      ({ change_detected := st.change_detected
         change_type :=
           if d.change_type.getD "" ≠ "" then
             match ChangeType.ofString (d.change_type.getD "") with
             | some ct => ct
             | none => st.change_type
           else st.change_type
         severity :=
           if d.severity.getD "" ≠ "" then
             match Severity.ofString (d.severity.getD "") with
             | some sev => sev
             | none => st.severity
           else st.severity
         severity_score :=
           if d.severity.getD "" ≠ "" then
             match Severity.ofString (d.severity.getD "") with
             | some sev => severityScore sev
             | none => st.severity_score
           else st.severity_score
         summary := if d.summary.getD "" ≠ "" then d.summary.getD "" else st.summary
         business_impact :=
           if d.business_impact.getD "" ≠ "" then d.business_impact.getD ""
           else st.business_impact
         recommended_action :=
           if d.recommended_action.getD "" ≠ "" then d.recommended_action.getD ""
           else st.recommended_action
         confidence := st.confidence },
       some (pyOr (d.human_readable_comparison.getD "") ""), true) := by
  unfold openaiFallbackStage
  rw [if_pos hn]
  by_cases h1 : d.business_impact.getD "" ≠ "" <;>
    by_cases h2 : d.recommended_action.getD "" ≠ "" <;>
      by_cases h3 : d.summary.getD "" ≠ "" <;>
        by_cases h4 : d.severity.getD "" ≠ "" <;>
          by_cases h5 : d.change_type.getD "" ≠ "" <;>
            rcases hS : Severity.ofString (d.severity.getD "") with _ | sv <;>
              rcases hC : ChangeType.ofString (d.change_type.getD "") with _ | cv <;>
                simp [h1, h2, h3, h4, h5, hS, hC]

/-- C7 (amended): the deep-fallback backend is invoked iff an OpenAI key is
configured AND `_needs_openai_fallback` holds (change detected and stripped
business_impact or recommended_action shorter than 20 characters) — the
claim's iff fails when the backend is unconfigured; when invoked, a raised
exception, and every empty-or-missing returned field, leave the pre-existing
values unchanged. -/
theorem C7_deep_fallback_gate_and_nondestructive_merge :
    (∀ (st : MergeState) (cfg : Bool) (r : Except String InDepthResp),
      (openaiFallbackStage st cfg r).2.2 =
        (cfg && _needs_openai_fallback st.change_detected st.business_impact
          st.recommended_action)) ∧
    (∀ (st : MergeState) (cfg : Bool) (e : String),
      (openaiFallbackStage st cfg (.error e)).1 = st) ∧
    (∀ (st : MergeState) (d : InDepthResp),
      (d.business_impact.getD "" = "" →
        (openaiFallbackStage st true (.ok d)).1.business_impact =
          st.business_impact) ∧
      (d.recommended_action.getD "" = "" →
        (openaiFallbackStage st true (.ok d)).1.recommended_action =
          st.recommended_action) ∧
      (d.summary.getD "" = "" →
        (openaiFallbackStage st true (.ok d)).1.summary = st.summary) ∧
      (d.severity.getD "" = "" →
        (openaiFallbackStage st true (.ok d)).1.severity = st.severity) ∧
      (d.change_type.getD "" = "" →
        (openaiFallbackStage st true (.ok d)).1.change_type = st.change_type)) := by
  refine ⟨?_, ?_, ?_⟩
  · intro st cfg r
    unfold openaiFallbackStage
    cases hn : _needs_openai_fallback st.change_detected st.business_impact
        st.recommended_action <;>
      cases cfg <;> cases r <;> simp [hn]
  · intro st cfg e
    unfold openaiFallbackStage
    cases hn : _needs_openai_fallback st.change_detected st.business_impact
        st.recommended_action <;>
      cases cfg <;> simp [hn]
  · intro st d
    by_cases hn : _needs_openai_fallback st.change_detected st.business_impact
        st.recommended_action = true
    · rw [openaiFallbackStage_ok_closed st d hn]
      refine ⟨?_, ?_, ?_, ?_, ?_⟩ <;> intro h <;> simp [h]
    · have hid : (openaiFallbackStage st true (.ok d)).1 = st := by
        unfold openaiFallbackStage
        simp [hn]
      rw [hid]
      exact ⟨fun _ => rfl, fun _ => rfl, fun _ => rfl, fun _ => rfl, fun _ => rfl⟩

/-- Scenario E merged state: change detected, 5-character business impact,
empty recommended action. -/
def stC7 : MergeState :=
  ⟨true, .other, .low, 1, "Change detected", "thin!", "", 0.8⟩

/-- Scenario E deep-fallback reply: empty recommended_action. -/
def dC7 : InDepthResp :=
  ⟨some "Detailed comparison", some "Competitor changed pricing materially.",
   some "", none, none, none⟩

theorem C7_deep_fallback_gate_and_nondestructive_merge_counterexample :
    _needs_openai_fallback stC7.change_detected stC7.business_impact
      stC7.recommended_action = true ∧
    (openaiFallbackStage stC7 false (.ok dC7)).2.2 = false := by
  decide

theorem C7_deep_fallback_gate_and_nondestructive_merge_witness :
    (openaiFallbackStage stC7 true (.ok dC7)).2.2 =
      (true && _needs_openai_fallback stC7.change_detected stC7.business_impact
        stC7.recommended_action) ∧
    dC7.recommended_action.getD "" = "" ∧
    (openaiFallbackStage stC7 true (.ok dC7)).1.recommended_action =
      stC7.recommended_action :=
  ⟨C7_deep_fallback_gate_and_nondestructive_merge.1 stC7 true (.ok dC7), rfl,
   (C7_deep_fallback_gate_and_nondestructive_merge.2.2 stC7 dC7).2.1 rfl⟩

/-- The Groq reply's change_type/severity strings (with the adapter's
defaults) name valid enum members — the condition under which the merge
step's `ChangeType(...)`/`Severity(...)` constructor calls cannot raise. -/
def validGroqEnums (env : OrchEnv) : Prop :=
  ∀ raw, env.groqResponse = some raw →
    (ChangeType.ofString (raw.change_type.getD "other")).isSome = true ∧
    (Severity.ofString (raw.severity.getD "low")).isSome = true

theorem mergeLLM_groq_ok (diffR : DiffResult) (raw : RawGroqJson)
    (h1 : (ChangeType.ofString (raw.change_type.getD "other")).isSome = true)
    (h2 : (Severity.ofString (raw.severity.getD "low")).isSome = true) :
    ∃ st, mergeLLM diffR (some (groqNormalize raw)) = .ok st := by
  unfold mergeLLM groqNormalize
  simp only [Option.getD_some, Option.getD_none]
  rcases hct : ChangeType.ofString (raw.change_type.getD "other") with _ | ct
  · rw [hct] at h1; cases h1
  · rcases hsev : Severity.ofString (raw.severity.getD "low") with _ | sev
    · rw [hsev] at h2; cases h2
    · exact ⟨_, rfl⟩

theorem mergeLLM_env_not_error (env : OrchEnv) (hvalid : validGroqEnums env)
    (diffR : DiffResult) (c : Bool) :
    ¬ ∃ e, mergeLLM diffR
      (if c = true then groqAnalyzeChanges env.groqEnabled env.groqResponse
       else none) = .error e := by
  rintro ⟨e, he⟩
  cases c with
  | false => cases he
  | true =>
      rw [if_pos rfl] at he
      unfold groqAnalyzeChanges at he
      by_cases hen : env.groqEnabled = false
      · rw [if_pos hen] at he; cases he
      · rw [if_neg hen] at he
        cases hresp : env.groqResponse with
        | none => rw [hresp] at he; cases he
        | some raw =>
            rw [hresp] at he
            obtain ⟨hv1, hv2⟩ := hvalid raw hresp
            obtain ⟨st, hst⟩ := mergeLLM_groq_ok diffR raw hv1 hv2
            rw [show (some raw).map groqNormalize = some (groqNormalize raw)
              from rfl, hst] at he
            cases he

/-- Whether an orchestrator outcome is a normal return (no exception). -/
def isOkE : Except OrchErr (Option ChangeEventRec) → Bool
  | .ok _ => true
  | .error _ => false

/-- On the main analysis path (snapshot usable, baseline present, hashes
differ) with well-formed Groq enum strings, the orchestrator never throws:
a succeeding final commit returns the event, a failing one is rolled back
and returns `None`. -/
theorem detect_main_path_ok (env : OrchEnv) (cur : Snapshot)
    (page : MonitoredPage) (hvalid : validGroqEnums env) (previous : Snapshot)
    (hprev : env.previousSnapshot = some previous)
    (h0 : ¬(cur.success = false ∨ pyTruthy cur.cleaned_text = false))
    (hh : ¬cur.content_hash = previous.content_hash) :
    (env.finalCommitOk = true ∧
      ∃ rec, (detect_and_analyze_changes env cur page).1 = .ok (some rec)) ∨
    (env.finalCommitOk = false ∧
      (detect_and_analyze_changes env cur page).1 = .ok none) := by
  unfold detect_and_analyze_changes
  rw [if_neg h0, hprev]
  dsimp only
  rw [if_neg hh]
  split
  · next e he =>
      exact absurd ⟨e, he⟩ (mergeLLM_env_not_error env hvalid _ _)
  · next st hst =>
      cases hf : env.finalCommitOk with
      | true => exact Or.inl ⟨rfl, ⟨_, rfl⟩⟩
      | false => exact Or.inr ⟨rfl, rfl⟩

/-- C5: the spec says a failure of the final persistence commit is the only
failure class that propagates out of `detect_and_analyze_changes`.  In the
code the opposite holds: (a) whenever the fast path's unguarded `db.commit()`
succeeds and the Groq reply's enum strings are valid, the call never throws
— in particular a failing *final* commit never propagates; and (b) on the
main analysis path a failing final commit is rolled back and the call
returns `None`. -/
theorem C5_failure_propagation (env : OrchEnv) (cur : Snapshot)
    (page : MonitoredPage) (hvalid : validGroqEnums env) :
    (env.fastCommitOk = true →
      isOkE (detect_and_analyze_changes env cur page).1 = true) ∧
    (∀ previous, env.previousSnapshot = some previous →
      ¬(cur.success = false ∨ pyTruthy cur.cleaned_text = false) →
      ¬cur.content_hash = previous.content_hash →
      env.finalCommitOk = false →
      (detect_and_analyze_changes env cur page).1 = .ok none) := by
  constructor
  · intro hfast
    by_cases h0 : cur.success = false ∨ pyTruthy cur.cleaned_text = false
    · unfold detect_and_analyze_changes
      rw [if_pos h0]
      rfl
    · cases hprev : env.previousSnapshot with
      | none =>
          unfold detect_and_analyze_changes
          rw [if_neg h0, hprev]
          rfl
      | some previous =>
          by_cases hh : cur.content_hash = previous.content_hash
          · unfold detect_and_analyze_changes
            rw [if_neg h0, hprev]
            dsimp only
            rw [if_pos hh, hfast]
            rfl
          · rcases detect_main_path_ok env cur page hvalid previous hprev h0 hh
              with ⟨_, rec, hok⟩ | ⟨_, hok⟩ <;> rw [hok] <;> rfl
  · intro previous hprev h0 hh hfin
    rcases detect_main_path_ok env cur page hvalid previous hprev h0 hh
      with ⟨hf, _⟩ | ⟨_, hok⟩
    · rw [hfin] at hf; cases hf
    · exact hok

/-- C5 scenario: different hashes, Groq disabled, a failing final commit. -/
def prevC5 : Snapshot := ⟨1, true, some "text a", none, some "ha", some "T"⟩

def curC5 : Snapshot := ⟨2, true, some "text b", none, some "hb", some "T"⟩

def pageC5 : MonitoredPage := ⟨11, some "http://example.com", none, none⟩

def envC5 : OrchEnv :=
  { previousSnapshot := some prevC5,
    extractAttempt := fun _ => .ok emptyExtraction,
    sim := fun _ _ => 1, groqEnabled := false, groqResponse := none,
    openaiConfigured := false, inDepth := .error "unused",
    fastCommitOk := true, finalCommitOk := false }

theorem C5_failure_propagation_counterexample :
    envC5.finalCommitOk = false ∧
    (detect_and_analyze_changes envC5 curC5 pageC5).1 = .ok none := by
  refine ⟨rfl, ?_⟩
  rcases detect_main_path_ok envC5 curC5 pageC5 (fun raw h => nomatch h) prevC5
      rfl (by decide) (by decide) with ⟨hf, _⟩ | ⟨_, hok⟩
  · exact absurd hf (by decide)
  · exact hok

theorem C5_failure_propagation_witness :
    validGroqEnums envC5 ∧
    isOkE (detect_and_analyze_changes envC5 curC5 pageC5).1 = true ∧
    (detect_and_analyze_changes envC5 curC5 pageC5).1 = .ok none := by
  have hvalid : validGroqEnums envC5 := fun raw h => nomatch h
  exact ⟨hvalid,
    (C5_failure_propagation envC5 curC5 pageC5 hvalid).1 rfl,
    (C5_failure_propagation envC5 curC5 pageC5 hvalid).2 prevC5
      rfl (by decide) (by decide) rfl⟩
